import Mathlib

/-!
Verification of the order-event reconciliation core of the CFC Order
Workflow backend (files `main.py`, `gmail_sync.py`, `square_sync.py`).

The Python sources are shallowly embedded:
* decimal currency amounts are modelled as rationals;
* timestamps (`NOW()`) are modelled as a `Nat` tick passed to every
  operation;
* the SQL tables `orders`, `order_events`, `order_alerts` are modelled as
  Lean lists of structures, and each SQL statement is translated into the
  corresponding pure list transformation;
* Python regular expressions are embedded through a small backtracking
  engine (`RE` below) implementing the `re` module semantics used by the
  sources: leftmost match, greedy and lazy quantifiers over character
  classes, alternation with left preference, word boundaries, and
  MULTILINE anchors.  Character classes are the ASCII fragment, which
  covers every input the claims mention.
-/

namespace CFC

/-- Remove duplicates keeping the first occurrence, as the Python
`seen`-set loop at the end of `extract_order_ids` does. -/
def dedupFirst (seen : List String) : List String → List String
  | [] => []
  | x :: xs => if x ∈ seen then dedupFirst seen xs else x :: dedupFirst (x :: seen) xs

/-- SQL `COALESCE(a, b)`. -/
def coalesce {α : Type} (a b : Option α) : Option α :=
  match a with
  | some v => some v
  | none => b

/-- First `some` produced by `f` over a list (used for regex backtracking). -/
def firstSome {α β : Type} (f : α → Option β) : List α → Option β
  | [] => none
  | x :: xs =>
    match f x with
    | some r => some r
    | none => firstSome f xs

/-- Python `str.lower()`. -/
def mkLower (s : String) : String := String.mk (s.data.map Char.toLower)

/-- Python `str.upper()`. -/
def mkUpper (s : String) : String := String.mk (s.data.map Char.toUpper)

/-- Python `str.strip()`. -/
def pyStrip (s : String) : String :=
  String.mk (((s.data.dropWhile Char.isWhitespace).reverse.dropWhile Char.isWhitespace).reverse)

/-- Maximal non-whitespace runs (helper for Python `str.split()`). -/
def wsTokensAux : List Char → List Char → List String
  | acc, [] => if acc = [] then [] else [String.mk acc.reverse]
  | acc, c :: rest =>
    if c.isWhitespace then
      if acc = [] then wsTokensAux [] rest
      else String.mk acc.reverse :: wsTokensAux [] rest
    else wsTokensAux (c :: acc) rest

/-- Python `str.split()` with no argument: split on whitespace runs,
dropping empty pieces. -/
def pySplit (s : String) : List String := wsTokensAux [] s.data

/-- `body.replace('\r\n', '\n').replace('\r', '\n')` as a single pass (the
two sequential replaces have exactly this effect). -/
def pyCleanNewlines : List Char → List Char
  | [] => []
  | '\r' :: '\n' :: rest => '\n' :: pyCleanNewlines rest
  | '\r' :: rest => '\n' :: pyCleanNewlines rest
  | c :: rest => c :: pyCleanNewlines rest

/-- `name.split()[0]` as used by the payment matchers (callers only reach
this with a nonempty name; `""` stands for the out-of-scope degenerate case). -/
def firstToken (s : String) : String := (pySplit s).headD ""

/-- Python `\w` (ASCII fragment). -/
def isWordChar (c : Char) : Bool := c.isAlphanum || c = '_'

/-- Regular expressions as used in the three source files: character
classes, concatenation, alternation (left-preferring), counted repetition
of a class (greedy or lazy), capture groups, `\b`, MULTILINE `^`, and the
single-line `$`. -/
inductive RE where
  | eps : RE
  | cls (p : Char → Bool) : RE
  | cat (a b : RE) : RE
  | alt (a b : RE) : RE
  | rep (p : Char → Bool) (lo : Nat) (hi : Option Nat) (lzy : Bool) : RE
  | group (n : Nat) (a : RE) : RE
  | wb : RE
  | bolM : RE
  | eolS : RE

/-- Captured groups of a match. -/
abbrev Caps := List (Nat × String)

/-- A match result: captures, last consumed character, unconsumed suffix. -/
abbrev MRes := Caps × Option Char × List Char

/-- Largest repetition count available for a class at the current position. -/
def repMax (p : Char → Bool) (hi : Option Nat) (cs : List Char) : Nat :=
  let avail := (cs.takeWhile p).length
  match hi with
  | none => avail
  | some h => min h avail

/-- Backtracking matcher in continuation style, implementing Python `re`
semantics for the fragment above.  `prev` is the character before the
current position (for `\b` and MULTILINE `^`). -/
def reM : RE → Option Char → List Char → (Option Char → List Char → Option MRes) → Option MRes
  | .eps, prev, cs, k => k prev cs
  | .cls p, _, cs, k =>
    match cs with
    | [] => none
    | c :: rest => if p c then k (some c) rest else none
  | .cat a b, prev, cs, k => reM a prev cs (fun p2 cs2 => reM b p2 cs2 k)
  | .alt a b, prev, cs, k =>
    match reM a prev cs k with
    | some r => some r
    | none => reM b prev cs k
  | .rep p lo hi lzy, prev, cs, k =>
    let mx := repMax p hi cs
    if lo > mx then none
    else
      let counts := (List.range (mx + 1 - lo)).map (fun i => lo + i)
      let counts := if lzy then counts else counts.reverse
      firstSome (fun n =>
        let prev2 := if n = 0 then prev else (cs.take n).getLast?
        k prev2 (cs.drop n)) counts
  | .group n a, prev, cs, k =>
    reM a prev cs (fun p2 cs2 =>
      match k p2 cs2 with
      | some (caps, pf, rf) =>
        some ((n, String.mk (cs.take (cs.length - cs2.length))) :: caps, pf, rf)
      | none => none)
  | .wb, prev, cs, k =>
    let wp := match prev with
      | some c => isWordChar c
      | none => false
    let wn := match cs with
      | c :: _ => isWordChar c
      | [] => false
    if wp != wn then k prev cs else none
  | .bolM, prev, cs, k =>
    match prev with
    | none => k prev cs
    | some c => if c = '\n' then k prev cs else none
  | .eolS, prev, cs, k =>
    match cs with
    | [] => k prev cs
    | ['\n'] => k prev cs
    | _ => none

/-- Try to match `r` anchored at the current position. -/
def reAtPos (r : RE) (prev : Option Char) (cs : List Char) : Option MRes :=
  reM r prev cs (fun p2 cs2 => some ([], p2, cs2))

/-- `re.search`: first position (left to right) where `r` matches. -/
def reSearchAux (r : RE) : Option Char → List Char → Option MRes
  | prev, cs =>
    match reAtPos r prev cs with
    | some res => some res
    | none =>
      match cs with
      | [] => none
      | c :: rest => reSearchAux r (some c) rest

/-- Group lookup in a match result. -/
def capGet (caps : Caps) (n : Nat) : Option String :=
  (caps.find? (fun pr => pr.1 = n)).map (fun pr => pr.2)

/-- `re.search(r, s)` returning all captures. -/
def reSearchCaps (r : RE) (s : String) : Option Caps :=
  (reSearchAux r none s.data).map (fun res => res.1)

/-- `re.search(r, s).group(1)`. -/
def reSearch1 (r : RE) (s : String) : Option String :=
  (reSearchAux r none s.data).bind (fun res => capGet res.1 1)

/-- `re.match(r, s).group(1)` (anchored at the start). -/
def reMatch1 (r : RE) (s : String) : Option String :=
  (reAtPos r none s.data).bind (fun res => capGet res.1 1)

/-- `re.match(r, s)` as a Boolean (used for the phone-line filter). -/
def reMatchB (r : RE) (s : String) : Bool :=
  (reAtPos r none s.data).isSome

/-- `re.findall(r, s)` for a pattern with one capture group: scan left to
right, non-overlapping, collecting group 1 of each match. -/
def reFindAllAux (r : RE) : Nat → Option Char → List Char → List String
  | 0, _, _ => []
  | fuel + 1, prev, cs =>
    match reAtPos r prev cs with
    | some (caps, pf, rest) =>
      let g := (capGet caps 1).getD ""
      if cs.length - rest.length = 0 then
        match cs with
        | [] => [g]
        | c :: cs2 => g :: reFindAllAux r fuel (some c) cs2
      else g :: reFindAllAux r fuel pf rest
    | none =>
      match cs with
      | [] => []
      | c :: cs2 => reFindAllAux r fuel (some c) cs2

/-- `re.findall(r, s)` (one capture group). -/
def reFindAll1 (r : RE) (s : String) : List String :=
  reFindAllAux r (s.data.length + 1) none s.data

/-- Case-insensitive single character. -/
def ciChar (c : Char) : RE := .cls (fun x => x.toLower = c.toLower)

/-- Case-insensitive literal (for `re.IGNORECASE` patterns). -/
def litCI (s : String) : RE := s.data.foldr (fun c r => .cat (ciChar c) r) .eps

/-- Case-sensitive literal. -/
def lit (s : String) : RE := s.data.foldr (fun c r => .cat (.cls (fun x => x = c)) r) .eps

/-- Left-preferring alternation of a list of branches. -/
def altList : List RE → RE
  | [] => .cls (fun _ => false)
  | [r] => r
  | r :: rs => .alt r (altList rs)

/-- Greedy `?` on a subexpression. -/
def reOpt (r : RE) : RE := .alt r .eps

/-- `needle` is a prefix of `hay`. -/
def isPrefixB : List Char → List Char → Bool
  | [], _ => true
  | _ :: _, [] => false
  | a :: as, b :: bs => a = b && isPrefixB as bs

/-- `needle` occurs contiguously inside `hay`. -/
def isInfixB (needle : List Char) : List Char → Bool
  | [] => isPrefixB needle []
  | c :: rest => isPrefixB needle (c :: rest) || isInfixB needle rest

/-- Case-insensitive substring test (SQL `LOWER(a) LIKE LOWER('%b%')`,
Python `b in a.lower()`). -/
def containsCI (hay needle : String) : Bool :=
  isInfixB (mkLower needle).data (mkLower hay).data

/-- Case-sensitive substring test (Python `b in a`). -/
def containsSub (hay needle : String) : Bool :=
  isInfixB needle.data hay.data

/-!
## `square_sync.py`: `extract_order_ids`
-/

/-- Pattern 1 of `extract_order_ids`: `^(\d{4,5})` (via `re.match`). -/
def squareStartRe : RE := .group 1 (.rep Char.isDigit 4 (some 5) false)

/-- Pattern 2 of `extract_order_ids`: `\b(5\d{3,4})\b`. -/
def squareFivesRe : RE :=
  .cat .wb (.cat (.group 1 (.cat (.cls (fun c => c = '5')) (.rep Char.isDigit 3 (some 4) false))) .wb)

/-- Pattern 3 of `extract_order_ids`: `\b(\d{4,5})\b`. -/
def squareAnyRe : RE :=
  .cat .wb (.cat (.group 1 (.rep Char.isDigit 4 (some 5) false)) .wb)

/-- The raw id list collected by `extract_order_ids` before deduplication. -/
def rawOrderIds (description : String) : List String :=
  let ids1 :=
    match reMatch1 squareStartRe description with
    | some g => [g]
    | none => []
  let ids2 := ids1 ++ reFindAll1 squareFivesRe description
  if ids2 = [] then ids2 ++ reFindAll1 squareAnyRe description else ids2

/-- `square_sync.extract_order_ids`. -/
def extract_order_ids (description : String) : List String :=
  if description = "" then []
  else dedupFirst [] (rawOrderIds description)

/-!
## Data model

A row of the `orders` table (schema in `main.py`).  Nullable columns are
`Option`; `DECIMAL` columns are rationals; `TIMESTAMP` columns are `Nat`
ticks.  Columns irrelevant to every claim (`email_thread_id`, `notes`,
`needs_review`, `review_reason`, `shipping_quote_amount`, `created_at`)
are omitted.
-/

structure Order where
  order_id : String
  customer_name : Option String := none
  company_name : Option String := none
  email : Option String := none
  phone : Option String := none
  street : Option String := none
  city : Option String := none
  state : Option String := none
  zip_code : Option String := none
  order_date : Nat := 0
  order_total : Option ℚ := none
  comments : Option String := none
  warehouse_1 : Option String := none
  warehouse_2 : Option String := none
  payment_link_sent : Bool := false
  payment_link_sent_at : Option Nat := none
  payment_received : Bool := false
  payment_received_at : Option Nat := none
  payment_amount : Option ℚ := none
  shipping_cost : Option ℚ := none
  rl_quote_no : Option String := none
  sent_to_warehouse : Bool := false
  sent_to_warehouse_at : Option Nat := none
  warehouse_confirmed : Bool := false
  warehouse_confirmed_at : Option Nat := none
  supplier_order_no : Option String := none
  bol_sent : Bool := false
  bol_sent_at : Option Nat := none
  tracking : Option String := none
  pro_number : Option String := none
  is_trusted_customer : Bool := false
  is_complete : Bool := false
  completed_at : Option Nat := none
  updated_at : Nat := 0
deriving Repr, DecidableEq

/-- A row of the `order_events` table.  The JSONB `event_data` payload is
not modelled (no claim depends on it). -/
structure OrderEvent where
  order_id : String
  event_type : String
  source : String
deriving Repr, DecidableEq

/-- A row of the `order_alerts` table. -/
structure Alert where
  order_id : String
  alert_type : String
  alert_message : String
  is_resolved : Bool := false
  created_at : Nat := 0
deriving Repr, DecidableEq

/-- `UPDATE orders SET ... WHERE order_id = oid` as a list transformation. -/
def updateOrders (oid : String) (f : Order → Order) (orders : List Order) : List Order :=
  orders.map (fun o => if o.order_id = oid then f o else o)

/-- `SELECT ... FROM orders WHERE order_id = oid` with `fetchone`. -/
def findOrder (orders : List Order) (oid : String) : Option Order :=
  orders.find? (fun o => o.order_id = oid)

/-- `ORDER BY order_date DESC` (stable insertion sort). -/
def insertByDateDesc (o : Order) : List Order → List Order
  | [] => [o]
  | x :: xs => if o.order_date ≤ x.order_date then x :: insertByDateDesc o xs else o :: x :: xs

/-- Rows of the `orders` table sorted by `order_date` descending. -/
def sortByDateDesc (l : List Order) : List Order := l.foldr insertByDateDesc []

/-!
## `gmail_sync.py`: database update functions
-/

/-- `gmail_sync.update_order_payment_link_sent`.  Returns the function
result together with the new `orders` and `order_events` tables. -/
def update_order_payment_link_sent (orders : List Order) (events : List OrderEvent)
    (oid : String) (now : Nat) : Bool × List Order × List OrderEvent :=
  match findOrder orders oid with
  | none => (false, orders, events)
  | some row =>
    if row.payment_link_sent then (false, orders, events)
    else
      (true,
       updateOrders oid (fun o =>
         { o with payment_link_sent := true, payment_link_sent_at := some now,
                  updated_at := now }) orders,
       events ++ [⟨oid, "payment_link_sent", "gmail_sync"⟩])

/-- The acceptance rule inside `gmail_sync.match_payment_to_order`:
`amount >= order_total * 0.95`, with a NULL total read as `0`
(`float(order["order_total"] or 0)`). -/
def gmailAmountRule (amount : ℚ) (o : Order) : Bool :=
  (o.order_total.getD 0) * (95 / 100) ≤ amount

/-- The SQL name filter of `match_payment_to_order`:
`LOWER(customer_name) LIKE LOWER('%tok%') OR LOWER(company_name) LIKE ...`
(a NULL column never matches). -/
def gmailNameFilter (tok : String) (o : Order) : Bool :=
  (match o.customer_name with
   | some n => containsCI n tok
   | none => false) ||
  (match o.company_name with
   | some n => containsCI n tok
   | none => false)

/-- The candidate query of `match_payment_to_order`: unpaid orders whose
customer or company name contains the payer's first token, newest first,
`LIMIT 5`. -/
def gmailCandidates (orders : List Order) (customer_name : String) : List Order :=
  let tok := firstToken customer_name
  (((sortByDateDesc orders).filter
      (fun o => !o.payment_received && gmailNameFilter tok o)).take 5)

/-- The `UPDATE` row transformation of `match_payment_to_order`. -/
def gmailMarkPaid (amount : ℚ) (now : Nat) (r : Order) : Order :=
  { r with payment_received := true, payment_received_at := some now,
           payment_amount := some amount, updated_at := now }

/-- `gmail_sync.match_payment_to_order`. -/
def match_payment_to_order (orders : List Order) (events : List OrderEvent)
    (amount : ℚ) (customer_name : String) (now : Nat) :
    Bool × List Order × List OrderEvent :=
  match (gmailCandidates orders customer_name).find? (gmailAmountRule amount) with
  | some o =>
    (true,
     updateOrders o.order_id (gmailMarkPaid amount now) orders,
     events ++ [⟨o.order_id, "payment_received", "gmail_sync"⟩])
  | none => (false, orders, events)

/-- `gmail_sync.update_order_rl_quote`. -/
def update_order_rl_quote (orders : List Order) (events : List OrderEvent)
    (oid quote_no : String) (now : Nat) : List Order × List OrderEvent :=
  (updateOrders oid (fun o => { o with rl_quote_no := some quote_no, updated_at := now }) orders,
   events ++ [⟨oid, "rl_quote_captured", "gmail_sync"⟩])

/-- `gmail_sync.update_order_tracking`. -/
def update_order_tracking (orders : List Order) (events : List OrderEvent)
    (oid tracking_no carrier : String) (now : Nat) : List Order × List OrderEvent :=
  let tracking_text :=
    if carrier ≠ "PRO" then carrier ++ " " ++ tracking_no else "R+L PRO " ++ tracking_no
  (updateOrders oid (fun o =>
     { o with tracking := some tracking_text,
              pro_number := if carrier = "PRO" then some tracking_no else o.pro_number,
              updated_at := now }) orders,
   events ++ [⟨oid, "tracking_captured", "gmail_sync"⟩])

/-!
## `square_sync.py`: `run_square_sync`

External effects are parameters: the Square fetch result is an
`Except String (List RawPayment)` (a raised fetch error is `.error`), and
database exceptions inside the per-order `try` block are an oracle
`exc : payment_id → order_id → Option message` (the `except` branch rolls
the per-order transaction back and records the message).
`parse_payment_for_matching` only contributes `amount` and `description`;
its Square API lookups handle their own errors and never raise.
-/

structure RawPayment where
  payment_id : String
  amount : ℚ
  description : String
deriving Repr, DecidableEq

structure SqUpdated where
  order_id : String
  payment_amount : ℚ
  shipping_cost : Option ℚ
  square_payment_id : String
deriving Repr, DecidableEq

structure SqUnmatched where
  payment_id : String
  amount : ℚ
  description : String
  reason : String
deriving Repr, DecidableEq

structure SqError where
  order_id : String
  error : String
deriving Repr, DecidableEq

structure SquareResults where
  status : String := "ok"
  reason : Option String := none
  payments_found : Nat := 0
  orders_updated : List SqUpdated := []
  payments_unmatched : List SqUnmatched := []
  errors : List SqError := []
  error : Option String := none
deriving Repr, DecidableEq

structure SqState where
  orders : List Order
  events : List OrderEvent
  res : SquareResults
deriving Repr, DecidableEq

/-- The `shipping_cost` computed by `run_square_sync` from the fetched row. -/
def squareShipping (nIds : Nat) (amount : ℚ) (row : Order) : Option ℚ :=
  let order_total := row.order_total.getD 0
  if nIds = 1 ∧ 0 < order_total then
    if amount - order_total < 0 then none else some (amount - order_total)
  else none

/-- The `UPDATE orders SET ...` of `run_square_sync` with precomputed
shipping cost. -/
def squareApplyPaid (nIds : Nat) (amount : ℚ) (shipping_cost : Option ℚ) (now : Nat)
    (o : Order) : Order :=
  { o with payment_received := true, payment_received_at := some now,
           payment_amount := if nIds = 1 then some amount else none,
           shipping_cost := coalesce shipping_cost o.shipping_cost,
           updated_at := now }

/-- The net effect of one `run_square_sync` order update on the row itself
(fetched row and updated row coincide because `order_id` is a primary key). -/
def squareRowUpdate (nIds : Nat) (amount : ℚ) (now : Nat) (o : Order) : Order :=
  squareApplyPaid nIds amount (squareShipping nIds amount o) now o

/-- One iteration of the inner `for order_id in order_ids` loop of
`run_square_sync` (`nIds` is `len(order_ids)` of the whole payment). -/
def processOneId (p : RawPayment) (nIds : Nat) (exc : String → String → Option String)
    (now : Nat) (st : SqState) (oid : String) : SqState :=
  match exc p.payment_id oid with
  | some e =>
    { st with res := { st.res with errors := st.res.errors ++ [⟨oid, e⟩] } }
  | none =>
    match findOrder st.orders oid with
    | none =>
      { st with res := { st.res with errors := st.res.errors ++ [⟨oid, "order_not_found"⟩] } }
    | some row =>
      if row.payment_received then st
      else
        let shipping_cost := squareShipping nIds p.amount row
        { st with
          orders := updateOrders oid (squareApplyPaid nIds p.amount shipping_cost now) st.orders,
          events := st.events ++ [⟨oid, "payment_received", "square_api"⟩],
          res := { st.res with orders_updated :=
            st.res.orders_updated ++ [⟨oid, p.amount, shipping_cost, p.payment_id⟩] } }

/-- One iteration of the outer `for payment in payments` loop of
`run_square_sync`. -/
def processPayment (exc : String → String → Option String) (now : Nat)
    (st : SqState) (p : RawPayment) : SqState :=
  let order_ids := extract_order_ids p.description
  if order_ids = [] then
    { st with res := { st.res with payments_unmatched :=
        st.res.payments_unmatched ++ [⟨p.payment_id, p.amount, p.description, "no_order_ids_in_description"⟩] } }
  else order_ids.foldl (processOneId p order_ids.length exc now) st

/-- `square_sync.run_square_sync`. -/
def run_square_sync (configured : Bool) (fetched : Except String (List RawPayment))
    (orders : List Order) (events : List OrderEvent)
    (exc : String → String → Option String) (now : Nat) : SqState :=
  if !configured then
    ⟨orders, events,
     { status := "disabled",
       reason := some "Square API not configured. Set SQUARE_ACCESS_TOKEN and SQUARE_LOCATION_ID." }⟩
  else
    match fetched with
    | .error e => ⟨orders, events, { status := "error", error := some e }⟩
    | .ok payments =>
      payments.foldl (processPayment exc now)
        ⟨orders, events, { payments_found := payments.length }⟩

/-!
## `main.py`: field extraction regexes and payment endpoints
-/

/-- `main.detect_payment_link`: body check `'square.link' in email_body.lower()`,
then `UPDATE ... WHERE order_id = %s AND NOT payment_link_sent`, logging an
event only when a row was updated. -/
def detect_payment_link (orders : List Order) (events : List OrderEvent)
    (oid : String) (email_body : String) (now : Nat) :
    Bool × List Order × List OrderEvent :=
  if containsSub (mkLower email_body) "square.link" then
    let hit := orders.any (fun o => o.order_id = oid && !o.payment_link_sent)
    if hit then
      (true,
       orders.map (fun o =>
         if o.order_id = oid && !o.payment_link_sent then
           { o with payment_link_sent := true, payment_link_sent_at := some now,
                    updated_at := now }
         else o),
       events ++ [⟨oid, "payment_link_sent", "email_detection"⟩])
    else (false, orders, events)
  else (false, orders, events)

/-- Digit-string to number (helper for Python `float`). -/
def natOfDigits (ds : List Char) : Nat :=
  ds.foldl (fun n c => n * 10 + (c.toNat - 48)) 0

/-- Python `float(s)` on a comma-stripped `[\d]*\.?[\d]*` string: raises
(`.error`) when no digit is present, as `float("")`/`float(".")` do. -/
def parseFloatE (s : String) : Except String ℚ :=
  let cs := s.data
  if cs.any Char.isDigit then
    let intPart := cs.takeWhile Char.isDigit
    let rest := cs.drop intPart.length
    let fracPart := if rest.headD ' ' = '.' then (rest.drop 1).takeWhile Char.isDigit else []
    .ok ((natOfDigits intPart : ℚ) + (natOfDigits fracPart : ℚ) / ((10 : ℚ) ^ fracPart.length))
  else .error "could not convert string to float"

/-- The amount regex of `main.detect_payment_received`:
`\$([\d,]+\.?\d*)\s+payment received` (IGNORECASE). -/
def dprAmountRe : RE :=
  .cat (lit "$")
    (.cat (.group 1 (.cat (.rep (fun c => c.isDigit || c = ',') 1 none false)
                          (.cat (reOpt (lit ".")) (.rep Char.isDigit 0 none false))))
          (.cat (.rep Char.isWhitespace 1 none false) (litCI "payment received")))

/-- The name regex of `main.detect_payment_received`:
`payment received from (.+)$` (IGNORECASE; `$` is the single-line anchor). -/
def dprNameRe : RE :=
  .cat (litCI "payment received from ")
    (.cat (.group 1 (.rep (fun c => c ≠ '\n') 1 none false)) .eolS)

/-- Candidate query of `detect_payment_received`: unpaid orders with a
non-NULL total, newest first, `LIMIT 50`. -/
def dprCandidates (orders : List Order) : List Order :=
  ((sortByDateDesc orders).filter (fun o => !o.payment_received && o.order_total.isSome)).take 50

/-- The matching loop of `detect_payment_received` (`matched_order` is the
accumulator; an exact case-insensitive first-name match breaks the loop,
otherwise the first amount-qualifying order is kept as a fallback when
either customer name is missing). -/
def dprLoop (payment_amount : ℚ) (customer_name : Option String) :
    List Order → Option Order → Option Order
  | [], acc => acc
  | o :: rest, acc =>
    if (o.order_total.getD 0 ≠ 0) && (o.order_total.getD 0 ≤ payment_amount) then
      if (customer_name.getD "" ≠ "") && (o.customer_name.getD "" ≠ "") then
        if mkLower (firstToken (customer_name.getD ""))
            = mkLower (firstToken (o.customer_name.getD "")) then
          some o
        else dprLoop payment_amount customer_name rest acc
      else if acc.isNone then dprLoop payment_amount customer_name rest (some o)
      else dprLoop payment_amount customer_name rest acc
    else dprLoop payment_amount customer_name rest acc

/-- The match-and-update core of `main.detect_payment_received`, given the
already-extracted amount and payer name.  Returns the matched order id (if
any) and the new tables. -/
def detectPaymentReceivedMatch (orders : List Order) (events : List OrderEvent)
    (payment_amount : ℚ) (customer_name : Option String) (now : Nat) :
    Option String × List Order × List OrderEvent :=
  match dprLoop payment_amount customer_name (dprCandidates orders) none with
  | some m =>
    let order_total := m.order_total.getD 0
    let shipping_cost : Option ℚ :=
      if order_total ≠ 0 then some (payment_amount - order_total) else none
    (some m.order_id,
     updateOrders m.order_id (fun o =>
       { o with payment_received := true, payment_received_at := some now,
                payment_amount := some payment_amount, shipping_cost := shipping_cost,
                updated_at := now }) orders,
     events ++ [⟨m.order_id, "payment_received", "square_notification"⟩])
  | none => (none, orders, events)

/-- `main.detect_payment_received` from the raw email subject.  `.error`
models the unhandled `float` exception; the `Option String` is the matched
order id (`none` with unchanged tables means "not a payment notification"
or "could not match"). -/
def detect_payment_received (orders : List Order) (events : List OrderEvent)
    (email_subject : String) (now : Nat) :
    Except String (Option String × List Order × List OrderEvent) :=
  match reSearch1 dprAmountRe email_subject with
  | none => .ok (none, orders, events)
  | some g =>
    match parseFloatE (String.mk (g.data.filter (fun c => c ≠ ','))) with
    | .error e => .error e
    | .ok payment_amount =>
      let customer_name := (reSearch1 dprNameRe email_subject).map pyStrip
      .ok (detectPaymentReceivedMatch orders events payment_amount customer_name now)

/-- The six checkpoints accepted by `main.update_checkpoint`. -/
inductive Checkpoint where
  | payment_link_sent
  | payment_received
  | sent_to_warehouse
  | warehouse_confirmed
  | bol_sent
  | is_complete
deriving Repr, DecidableEq

/-- The event-type / column name of a checkpoint. -/
def checkpointName : Checkpoint → String
  | .payment_link_sent => "payment_link_sent"
  | .payment_received => "payment_received"
  | .sent_to_warehouse => "sent_to_warehouse"
  | .warehouse_confirmed => "warehouse_confirmed"
  | .bol_sent => "bol_sent"
  | .is_complete => "is_complete"

/-- `<checkpoint> = TRUE, <timestamp_field> = NOW(), updated_at = NOW()`. -/
def setFlagTs (cp : Checkpoint) (now : Nat) (o : Order) : Order :=
  match cp with
  | .payment_link_sent =>
    { o with payment_link_sent := true, payment_link_sent_at := some now, updated_at := now }
  | .payment_received =>
    { o with payment_received := true, payment_received_at := some now, updated_at := now }
  | .sent_to_warehouse =>
    { o with sent_to_warehouse := true, sent_to_warehouse_at := some now, updated_at := now }
  | .warehouse_confirmed =>
    { o with warehouse_confirmed := true, warehouse_confirmed_at := some now, updated_at := now }
  | .bol_sent =>
    { o with bol_sent := true, bol_sent_at := some now, updated_at := now }
  | .is_complete =>
    { o with is_complete := true, completed_at := some now, updated_at := now }

/-- `main.update_checkpoint` (`PATCH /orders/.../checkpoint`).  `.error`
is the 404; the event row is always inserted for an existing order. -/
def update_checkpoint (orders : List Order) (events : List OrderEvent)
    (oid : String) (cp : Checkpoint) (payment_amount : Option ℚ) (source : String)
    (now : Nat) : Except String (List Order × List OrderEvent) :=
  if orders.all (fun o => o.order_id ≠ oid) then .error "Order not found"
  else
    let setPA := cp = Checkpoint.payment_received ∧ payment_amount.getD 0 ≠ 0
    let shipping : Option ℚ :=
      if setPA then
        match findOrder orders oid with
        | some row =>
          match row.order_total with
          | some t => if t ≠ 0 then some (payment_amount.getD 0 - t) else none
          | none => none
        | none => none
      else none
    .ok
      (updateOrders oid (fun o =>
         setFlagTs cp now
           { o with payment_amount := if setPA then payment_amount else o.payment_amount,
                    shipping_cost := coalesce shipping o.shipping_cost }) orders,
       events ++ [⟨oid, checkpointName cp, source⟩])

/-!
## `main.py`: address parsing inside `parse_b2bwave_email`
-/

/-- `[A-Za-z\s]`. -/
def cszCls (c : Char) : Bool := c.isAlpha || c.isWhitespace

/-- `([A-Za-z][A-Za-z\s]+?)` — the lazy city group shared by the three
city/state/zip patterns. -/
def cszGroup1 : RE := .group 1 (.cat (.cls Char.isAlpha) (.rep cszCls 1 none true))

/-- `([A-Z]{2})`. -/
def stGroup : RE := .group 2 (.rep Char.isUpper 2 (some 2) false)

/-- `(\d{5}(?:-\d{4})?)`. -/
def zipGroup : RE :=
  .group 3 (.cat (.rep Char.isDigit 5 (some 5) false)
                 (reOpt (.cat (lit "-") (.rep Char.isDigit 4 (some 4) false))))

/-- csz pattern 1: `([A-Za-z][A-Za-z\s]+?)\s{2,}([A-Z]{2})\s{2,}(\d{5}(?:-\d{4})?)`. -/
def cszRe1 : RE :=
  .cat cszGroup1 (.cat (.rep Char.isWhitespace 2 none false)
    (.cat stGroup (.cat (.rep Char.isWhitespace 2 none false) zipGroup)))

/-- csz pattern 2: `([A-Za-z][A-Za-z\s]+?),\s*([A-Z]{2})\s+(\d{5}(?:-\d{4})?)`. -/
def cszRe2 : RE :=
  .cat cszGroup1 (.cat (lit ",") (.cat (.rep Char.isWhitespace 0 none false)
    (.cat stGroup (.cat (.rep Char.isWhitespace 1 none false) zipGroup))))

/-- csz pattern 3: `([A-Za-z][A-Za-z\s]+?)\s+([A-Z]{2})\s+(\d{5}(?:-\d{4})?)`. -/
def cszRe3 : RE :=
  .cat cszGroup1 (.cat (.rep Char.isWhitespace 1 none false)
    (.cat stGroup (.cat (.rep Char.isWhitespace 1 none false) zipGroup)))

/-- The city blocklist check of `parse_b2bwave_email`. -/
def cityBlocked (city : String) : Bool :=
  ["total", "order", "email", "phone", "comment", "name", "company"].any
    (fun kw => containsSub (mkLower city) kw)

/-- The `for pattern in csz_patterns` loop: first pattern whose match has a
non-blocklisted city wins. -/
def cszExtract (clean_body : String) : List RE → Option (String × String × String)
  | [] => none
  | r :: rest =>
    match reSearchCaps r clean_body with
    | some caps =>
      let city := pyStrip ((capGet caps 1).getD "")
      let state := (capGet caps 2).getD ""
      let zip := (capGet caps 3).getD ""
      if !cityBlocked city then some (city, state, zip) else cszExtract clean_body rest
    | none => cszExtract clean_body rest

/-- The street-line pattern `^(\d+[^\n]+?)(?:\n|$)` (MULTILINE). -/
def streetLineRe : RE :=
  .cat .bolM (.cat (.group 1 (.cat (.rep Char.isDigit 1 none false)
                                   (.rep (fun c => c ≠ '\n') 1 none true)))
                   (.alt (.cls (fun c => c = '\n')) .eolS))

/-- `[-.\s]`. -/
def phoneSep (c : Char) : Bool := c = '-' || c = '.' || c.isWhitespace

/-- The phone-line filter `^\d{3}[-.\s]?\d{3}[-.\s]?\d{4}` (`re.match`). -/
def phoneRe : RE :=
  .cat (.rep Char.isDigit 3 (some 3) false)
    (.cat (.rep phoneSep 0 (some 1) false)
      (.cat (.rep Char.isDigit 3 (some 3) false)
        (.cat (.rep phoneSep 0 (some 1) false) (.rep Char.isDigit 4 (some 4) false))))

/-- The `for street in street_matches` filter loop. -/
def pickStreet : List String → Option String
  | [] => none
  | st0 :: rest =>
    let st := pyStrip st0
    if containsSub (mkLower st) "phone" then pickStreet rest
    else if reMatchB phoneRe st then pickStreet rest
    else if containsSub st "$" then pickStreet rest
    else some st

/-- `(?:N\.?|S\.?|E\.?|W\.?|North|South|East|West)` (IGNORECASE). -/
def dirAlt : RE :=
  altList [.cat (ciChar 'N') (reOpt (lit ".")), .cat (ciChar 'S') (reOpt (lit ".")),
           .cat (ciChar 'E') (reOpt (lit ".")), .cat (ciChar 'W') (reOpt (lit ".")),
           litCI "North", litCI "South", litCI "East", litCI "West"]

/-- `(?:Street|St|Avenue|Ave|Road|Rd|Drive|Dr|Lane|Ln|Boulevard|Blvd|Way|Court|Ct|Place|Pl|Circle|Cir|Trail)` (IGNORECASE). -/
def suffixAlt : RE :=
  altList (["Street", "St", "Avenue", "Ave", "Road", "Rd", "Drive", "Dr", "Lane", "Ln",
            "Boulevard", "Blvd", "Way", "Court", "Ct", "Place", "Pl", "Circle", "Cir",
            "Trail"].map litCI)

/-- `[A-Za-z0-9\s]`. -/
def alnumSp (c : Char) : Bool := c.isAlphanum || c.isWhitespace

/-- The keyword-based street fallback pattern of `parse_b2bwave_email`. -/
def streetFallbackRe : RE :=
  .group 1 (.cat (.rep Char.isDigit 1 none false)
    (.cat (.rep Char.isWhitespace 1 none false)
      (.cat (reOpt dirAlt)
        (.cat (.rep Char.isWhitespace 0 none false)
          (.cat (.rep alnumSp 1 none false)
            (.cat suffixAlt (.rep (fun c => c ≠ '\n') 0 none false)))))))

structure AddressResult where
  street : Option String := none
  city : Option String := none
  state : Option String := none
  zip_code : Option String := none
deriving Repr, DecidableEq

/-- The address-extraction portion of `main.parse_b2bwave_email` (the
city/state/zip pattern cascade with its blocklist, the digit-line street
scan, and the street-suffix fallback), applied to the email body. -/
def parse_b2bwave_email_address (body : String) : AddressResult :=
  let clean_body := String.mk (pyCleanNewlines body.data)
  match cszExtract clean_body [cszRe1, cszRe2, cszRe3] with
  | some (city, state, zip) =>
    let street0 := pickStreet (reFindAll1 streetLineRe clean_body)
    let street :=
      match street0 with
      | some s => some s
      | none => (reSearch1 streetFallbackRe clean_body).map pyStrip
    ⟨street, some city, some state, some zip⟩
  | none =>
    ⟨(reSearch1 streetFallbackRe clean_body).map pyStrip, none, none, none⟩

/-!
## `main.py`: order creation / update paths
-/

/-- The fields of the `parsed` dict used by the `/parse-email` upsert. -/
structure ParsedFields where
  customer_name : Option String := none
  company_name : Option String := none
  email : Option String := none
  phone : Option String := none
  street : Option String := none
  city : Option String := none
  state : Option String := none
  zip_code : Option String := none
  order_total : Option ℚ := none
  comments : Option String := none
deriving Repr, DecidableEq

/-- The `UPDATE orders SET f = COALESCE(%s, f) ...` branch of
`main.parse_email` for an existing order (note the argument order of the
`COALESCE`: the freshly parsed value wins when non-NULL). -/
def parseEmailUpdateRow (p : ParsedFields) (w1 w2 : Option String) (now : Nat)
    (o : Order) : Order :=
  { o with
    customer_name := coalesce p.customer_name o.customer_name,
    company_name := coalesce p.company_name o.company_name,
    email := coalesce p.email o.email,
    phone := coalesce p.phone o.phone,
    street := coalesce p.street o.street,
    city := coalesce p.city o.city,
    state := coalesce p.state o.state,
    zip_code := coalesce p.zip_code o.zip_code,
    order_total := coalesce p.order_total o.order_total,
    comments := coalesce p.comments o.comments,
    warehouse_1 := coalesce w1 o.warehouse_1,
    warehouse_2 := coalesce w2 o.warehouse_2,
    updated_at := now }

/-- The `INSERT INTO orders` branch of `main.parse_email` for a new order:
checkpoint flags and timestamps take their schema defaults. -/
def parseEmailInsertRow (oid : String) (p : ParsedFields) (w1 w2 : Option String)
    (order_date : Nat) (trusted : Bool) : Order :=
  { order_id := oid,
    customer_name := p.customer_name, company_name := p.company_name,
    email := p.email, phone := p.phone,
    street := p.street, city := p.city, state := p.state, zip_code := p.zip_code,
    order_date := order_date, order_total := p.order_total, comments := p.comments,
    warehouse_1 := w1, warehouse_2 := w2, is_trusted_customer := trusted }

/-- The create-or-update logic of `main.parse_email` (order id and
warehouse resolution already done; the update branch logs no event, the
create branch logs `order_created`). -/
def parse_email (orders : List Order) (events : List OrderEvent) (oid : String)
    (p : ParsedFields) (w1 w2 : Option String) (order_date : Nat) (trusted : Bool)
    (now : Nat) : String × List Order × List OrderEvent :=
  if (findOrder orders oid).isSome then
    ("updated", updateOrders oid (parseEmailUpdateRow p w1 w2 now) orders, events)
  else
    ("created", orders ++ [parseEmailInsertRow oid p w1 w2 order_date trusted],
     events ++ [⟨oid, "order_created", "email_parse"⟩])

/-- The order-header fields `main.sync_order_from_b2bwave` extracts from a
B2BWave payload (after warehouse resolution and the trusted lookup). -/
structure B2BFields where
  order_id : String
  customer_name : String := ""
  company_name : String := ""
  email : String := ""
  phone : String := ""
  street : String := ""
  city : String := ""
  state : String := ""
  zip_code : String := ""
  comments : String := ""
  order_total : ℚ := 0
  order_date : Nat := 0
  warehouse_1 : Option String := none
  warehouse_2 : Option String := none
  is_trusted : Bool := false
deriving Repr, DecidableEq

/-- The `INSERT ... ON CONFLICT (order_id) DO UPDATE` upsert of
`main.sync_order_from_b2bwave`: on conflict every descriptive field takes
the `EXCLUDED` value but `warehouse_1`/`warehouse_2` keep the stored value
when it is non-NULL (`COALESCE(orders.warehouse_n, EXCLUDED.warehouse_n)`),
and `order_date` is not in the update list. -/
def b2bConflictUpdate (f : B2BFields) (now : Nat) (o : Order) : Order :=
  { o with
    customer_name := some f.customer_name, company_name := some f.company_name,
    street := some f.street, city := some f.city, state := some f.state,
    zip_code := some f.zip_code, phone := some f.phone, email := some f.email,
    comments := some f.comments, order_total := some f.order_total,
    warehouse_1 := coalesce o.warehouse_1 f.warehouse_1,
    warehouse_2 := coalesce o.warehouse_2 f.warehouse_2,
    is_trusted_customer := f.is_trusted,
    updated_at := now }

def sync_order_from_b2bwave (orders : List Order) (events : List OrderEvent)
    (f : B2BFields) (now : Nat) : List Order × List OrderEvent :=
  let orders2 :=
    if (findOrder orders f.order_id).isSome then
      updateOrders f.order_id (b2bConflictUpdate f now) orders
    else
      orders ++ [{ order_id := f.order_id,
                   customer_name := some f.customer_name,
                   company_name := some f.company_name,
                   email := some f.email, phone := some f.phone,
                   street := some f.street, city := some f.city,
                   state := some f.state, zip_code := some f.zip_code,
                   order_date := f.order_date, order_total := some f.order_total,
                   comments := some f.comments,
                   warehouse_1 := f.warehouse_1, warehouse_2 := f.warehouse_2,
                   is_trusted_customer := f.is_trusted }]
  (orders2, events ++ [⟨f.order_id, "b2bwave_sync", "api"⟩])

/-- The updatable fields of `PATCH /orders/...` (`OrderUpdate`); `notes`
is not modelled (the `Order` model omits that column). -/
structure OrderPatch where
  customer_name : Option String := none
  company_name : Option String := none
  email : Option String := none
  phone : Option String := none
  street : Option String := none
  city : Option String := none
  state : Option String := none
  zip_code : Option String := none
  order_total : Option ℚ := none
  comments : Option String := none
  tracking : Option String := none
  supplier_order_no : Option String := none
  warehouse_1 : Option String := none
  warehouse_2 : Option String := none
deriving Repr, DecidableEq

/-- `main.update_order`: each provided (non-None) field is written, every
other field is untouched; no checkpoint flag or timestamp is updatable. -/
def update_order (orders : List Order) (oid : String) (u : OrderPatch) (now : Nat) :
    List Order :=
  updateOrders oid (fun o =>
    { o with
      customer_name := coalesce u.customer_name o.customer_name,
      company_name := coalesce u.company_name o.company_name,
      email := coalesce u.email o.email,
      phone := coalesce u.phone o.phone,
      street := coalesce u.street o.street,
      city := coalesce u.city o.city,
      state := coalesce u.state o.state,
      zip_code := coalesce u.zip_code o.zip_code,
      order_total := coalesce u.order_total o.order_total,
      comments := coalesce u.comments o.comments,
      tracking := coalesce u.tracking o.tracking,
      supplier_order_no := coalesce u.supplier_order_no o.supplier_order_no,
      warehouse_1 := coalesce u.warehouse_1 o.warehouse_1,
      warehouse_2 := coalesce u.warehouse_2 o.warehouse_2,
      updated_at := now }) orders

/-- The quote pattern `(?:RL\s+)?Quote\s*(?:No|#)?[:\s]*(\d{6,10})`
(IGNORECASE), shared by `main.detect_rl_quote` and Gmail section 3. -/
def rlQuoteRe : RE :=
  .cat (reOpt (.cat (litCI "RL") (.rep Char.isWhitespace 1 none false)))
    (.cat (litCI "Quote")
      (.cat (.rep Char.isWhitespace 0 none false)
        (.cat (reOpt (.alt (litCI "No") (lit "#")))
          (.cat (.rep (fun c => c = ':' || c.isWhitespace) 0 none false)
            (.group 1 (.rep Char.isDigit 6 (some 10) false))))))

/-- `main.detect_rl_quote`. -/
def detect_rl_quote (orders : List Order) (events : List OrderEvent)
    (oid : String) (email_body : String) (now : Nat) :
    Option String × List Order × List OrderEvent :=
  match reSearch1 rlQuoteRe email_body with
  | some quote_no =>
    (some quote_no,
     updateOrders oid (fun o => { o with rl_quote_no := some quote_no, updated_at := now }) orders,
     events ++ [⟨oid, "rl_quote_captured", "email_detection"⟩])
  | none => (none, orders, events)

/-- The PRO pattern `PRO\s*(?:#|Number)?[:\s]*([A-Z]{0,2}\d{8,10}(?:-\d)?)`
(IGNORECASE), shared by `main.detect_pro_number` and Gmail section 4. -/
def proRe : RE :=
  .cat (litCI "PRO")
    (.cat (.rep Char.isWhitespace 0 none false)
      (.cat (reOpt (.alt (lit "#") (litCI "Number")))
        (.cat (.rep (fun c => c = ':' || c.isWhitespace) 0 none false)
          (.group 1 (.cat (.rep Char.isAlpha 0 (some 2) false)
            (.cat (.rep Char.isDigit 8 (some 10) false)
              (reOpt (.cat (lit "-") (.cls Char.isDigit)))))))))

/-- `main.detect_pro_number`. -/
def detect_pro_number (orders : List Order) (events : List OrderEvent)
    (oid : String) (email_body : String) (now : Nat) :
    Option String × List Order × List OrderEvent :=
  match reSearch1 proRe email_body with
  | some g =>
    let pro_no := mkUpper g
    (some pro_no,
     updateOrders oid (fun o =>
       { o with pro_number := some pro_no, tracking := some ("R+L PRO " ++ pro_no),
                updated_at := now }) orders,
     events ++ [⟨oid, "pro_number_captured", "email_detection"⟩])
  | none => (none, orders, events)

/-!
## `main.py`: `check_payment_alerts`
-/

/-- `INTERVAL '1 day'` in ticks (timestamps are minute ticks). -/
def dayTicks : Nat := 1440

/-- The alert message built by `check_payment_alerts` (Python renders the
NULL name as `None` and the numeric formatting is abstracted by `toString`). -/
def trustedUnpaidMessage (o : Order) : String :=
  "Trusted customer " ++ o.customer_name.getD "None" ++
    " - shipped but unpaid for 1+ day. Total: $" ++ toString (o.order_total.getD 0)

/-- The order-side conditions of the `check_payment_alerts` query:
`sent_to_warehouse AND NOT payment_received AND is_trusted_customer AND
sent_to_warehouse_at < NOW() - INTERVAL '1 day'` (a NULL timestamp
compares to nothing). -/
def trustedUnpaidDue (now : Nat) (o : Order) : Bool :=
  o.sent_to_warehouse && !o.payment_received && o.is_trusted_customer &&
    (match o.sent_to_warehouse_at with
     | some t => decide (t + dayTicks < now)
     | none => false)

/-- The `EXISTS` subquery of `check_payment_alerts`: an unresolved
`trusted_unpaid` alert for this order. -/
def hasOpenTrustedAlert (alerts : List Alert) (oid : String) : Bool :=
  alerts.any (fun a => a.order_id = oid && a.alert_type = "trusted_unpaid" && !a.is_resolved)

/-- The alert row inserted by `check_payment_alerts`. -/
def mkTrustedUnpaidAlert (now : Nat) (o : Order) : Alert :=
  ⟨o.order_id, "trusted_unpaid", trustedUnpaidMessage o, false, now⟩

/-- `main.check_payment_alerts`: one `trusted_unpaid` alert per qualifying
order, guarded by the `NOT EXISTS` unresolved-alert subquery; returns
`alerts_created` and the new `order_alerts` table. -/
def check_payment_alerts (orders : List Order) (alerts : List Alert) (now : Nat) :
    Nat × List Alert :=
  let qual := orders.filter (fun o =>
    trustedUnpaidDue now o && !(hasOpenTrustedAlert alerts o.order_id))
  (qual.length, alerts ++ qual.map (mkTrustedUnpaidAlert now))

/-!
## `gmail_sync.py`: extractors and `run_gmail_sync`
-/

/-- The labelled pattern of `gmail_sync.extract_order_id`:
`(?:order\s*#?\s*|#)(\d{4,5})\b` (IGNORECASE). -/
def gmailOrderIdRe : RE :=
  .cat (.alt (.cat (litCI "order")
               (.cat (.rep Char.isWhitespace 0 none false)
                 (.cat (reOpt (lit "#")) (.rep Char.isWhitespace 0 none false))))
             (lit "#"))
       (.cat (.group 1 (.rep Char.isDigit 4 (some 5) false)) .wb)

/-- `gmail_sync.extract_order_id` (labelled pattern first, then the bare
`\b(\d{4,5})\b` fallback, which is the same pattern as `squareAnyRe`). -/
def extract_order_id (text : String) : Option String :=
  match reSearch1 gmailOrderIdRe text with
  | some g => some g
  | none => reSearch1 squareAnyRe text

/-- The amount pattern of `gmail_sync.extract_payment_amount`:
`\$([\d,]+\.?\d*)`. -/
def moneyRe : RE :=
  .cat (lit "$")
    (.group 1 (.cat (.rep (fun c => c.isDigit || c = ',') 1 none false)
                    (.cat (reOpt (lit ".")) (.rep Char.isDigit 0 none false))))

/-- `gmail_sync.extract_payment_amount` (`.error` models the raised
`float` conversion error, which the per-message `try` catches). -/
def extract_payment_amount (text : String) : Except String (Option ℚ) :=
  match reSearch1 moneyRe text with
  | some g => (parseFloatE (String.mk (g.data.filter (fun c => c ≠ ',')))).map some
  | none => .ok none

/-- The name pattern of `gmail_sync.extract_customer_name`:
`payment received from\s+([^\n]+)` (IGNORECASE). -/
def custNameRe : RE :=
  .cat (litCI "payment received from")
    (.cat (.rep Char.isWhitespace 1 none false)
          (.group 1 (.rep (fun c => c ≠ '\n') 1 none false)))

/-- `gmail_sync.extract_customer_name`. -/
def extract_customer_name (text : String) : Option String :=
  (reSearch1 custNameRe text).map pyStrip

/-- The UPS pattern `\b(1Z[A-Z0-9]{16})\b`. -/
def upsRe : RE :=
  .cat .wb (.cat (.group 1 (.cat (lit "1Z")
                 (.rep (fun c => c.isUpper || c.isDigit) 16 (some 16) false))) .wb)

/-- A fetched email, as `get_email_content` returns it (headers the sync
logic reads, plus the decoded body). -/
structure GmailEmail where
  subject : String := ""
  sender : String := ""
  body : String := ""
deriving Repr, DecidableEq

/-- One message of a section: the `get_email_content` result (`none` on an
API failure, which the code skips silently) and an oracle for an exception
raised at the message's database call, which the per-message `try` turns
into an `errors` entry. -/
structure GmailMsg where
  content : Option GmailEmail := none
  dbexc : Option String := none
deriving Repr, DecidableEq

structure GmailResults where
  status : Option String := none
  reason : Option String := none
  payment_links : Nat := 0
  payments_received : Nat := 0
  rl_quotes : Nat := 0
  tracking_numbers : Nat := 0
  errors : List String := []
deriving Repr, DecidableEq

structure GmState where
  orders : List Order
  events : List OrderEvent
  res : GmailResults
deriving Repr, DecidableEq

/-- Section 1 of `run_gmail_sync` (payment links sent), one message. -/
def gmailHandlePaymentLink (now : Nat) (st : GmState) (m : GmailMsg) : GmState :=
  match m.content with
  | none => st
  | some email =>
    if !(containsCI email.sender "cabinetsforcontractors" || containsCI email.sender "william") then st
    else if !(containsSub (mkLower email.body) "square.link") then st
    else
      match extract_order_id (email.subject ++ " " ++ email.body) with
      | none => st
      | some oid =>
        match m.dbexc with
        | some e =>
          { st with res := { st.res with errors := st.res.errors ++ ["Payment link error: " ++ e] } }
        | none =>
          let r := update_order_payment_link_sent st.orders st.events oid now
          { orders := r.2.1, events := r.2.2,
            res := { st.res with payment_links := st.res.payment_links + 1 } }

/-- Section 2 of `run_gmail_sync` (Square payment notifications), one
message. -/
def gmailHandlePaymentReceived (now : Nat) (st : GmState) (m : GmailMsg) : GmState :=
  match m.content with
  | none => st
  | some email =>
    match extract_payment_amount email.subject with
    | .error e =>
      { st with res := { st.res with errors := st.res.errors ++ ["Payment received error: " ++ e] } }
    | .ok amt =>
      let customer_name := extract_customer_name email.subject
      if (amt.getD 0 ≠ 0) && (customer_name.getD "" ≠ "") then
        match m.dbexc with
        | some e =>
          { st with res := { st.res with errors := st.res.errors ++ ["Payment received error: " ++ e] } }
        | none =>
          let r := match_payment_to_order st.orders st.events (amt.getD 0) (customer_name.getD "") now
          if r.1 then
            { orders := r.2.1, events := r.2.2,
              res := { st.res with payments_received := st.res.payments_received + 1 } }
          else { st with orders := r.2.1, events := r.2.2 }
      else st

/-- Section 3 of `run_gmail_sync` (RL quote numbers), one message. -/
def gmailHandleRlQuote (now : Nat) (st : GmState) (m : GmailMsg) : GmState :=
  match m.content with
  | none => st
  | some email =>
    match reSearch1 rlQuoteRe email.body with
    | none => st
    | some quote_no =>
      match extract_order_id (email.subject ++ " " ++ email.body) with
      | none => st
      | some oid =>
        match m.dbexc with
        | some e =>
          { st with res := { st.res with errors := st.res.errors ++ ["RL quote error: " ++ e] } }
        | none =>
          let r := update_order_rl_quote st.orders st.events oid quote_no now
          { orders := r.1, events := r.2,
            res := { st.res with rl_quotes := st.res.rl_quotes + 1 } }

/-- The UPS half of section 4 (reached when the PRO branch did not update). -/
def gmailHandleTrackingUps (now : Nat) (st : GmState) (m : GmailMsg) (text : String) :
    GmState :=
  match reSearch1 upsRe text with
  | none => st
  | some code =>
    match extract_order_id text with
    | none => st
    | some oid =>
      match m.dbexc with
      | some e =>
        { st with res := { st.res with errors := st.res.errors ++ ["Tracking error: " ++ e] } }
      | none =>
        let r := update_order_tracking st.orders st.events oid code "UPS" now
        { orders := r.1, events := r.2,
          res := { st.res with tracking_numbers := st.res.tracking_numbers + 1 } }

/-- Section 4 of `run_gmail_sync` (PRO / tracking numbers), one message. -/
def gmailHandleTracking (now : Nat) (st : GmState) (m : GmailMsg) : GmState :=
  match m.content with
  | none => st
  | some email =>
    let text := email.subject ++ " " ++ email.body
    match reSearch1 proRe text with
    | some g =>
      let pro_no := mkUpper g
      match extract_order_id text with
      | none => gmailHandleTrackingUps now st m text
      | some oid =>
        match m.dbexc with
        | some e =>
          { st with res := { st.res with errors := st.res.errors ++ ["Tracking error: " ++ e] } }
        | none =>
          let r := update_order_tracking st.orders st.events oid pro_no "PRO" now
          { orders := r.1, events := r.2,
            res := { st.res with tracking_numbers := st.res.tracking_numbers + 1 } }
    | none => gmailHandleTrackingUps now st m text

/-- One section of `run_gmail_sync`: a failed `search_emails` call
(`.error`, the outer per-section `try`) appends a single labelled error;
otherwise every message is handled in order. -/
def runGmailSection (handler : GmState → GmailMsg → GmState) (errLabel : String)
    (msgs : Except String (List GmailMsg)) (st : GmState) : GmState :=
  match msgs with
  | .error e => { st with res := { st.res with errors := st.res.errors ++ [errLabel ++ e] } }
  | .ok ms => ms.foldl handler st

/-- `gmail_sync.run_gmail_sync`: the not-configured short circuit, then
the four sections in order, threading the database through. -/
def run_gmail_sync (configured : Bool)
    (sec1 sec2 sec3 sec4 : Except String (List GmailMsg))
    (orders : List Order) (events : List OrderEvent) (now : Nat) : GmState :=
  if !configured then
    ⟨orders, events, { status := some "skipped", reason := some "not_configured" }⟩
  else
    let st0 : GmState := ⟨orders, events, {}⟩
    let st1 := runGmailSection (gmailHandlePaymentLink now) "Payment link search error: " sec1 st0
    let st2 := runGmailSection (gmailHandlePaymentReceived now) "Payment search error: " sec2 st1
    let st3 := runGmailSection (gmailHandleRlQuote now) "RL quote search error: " sec3 st2
    runGmailSection (gmailHandleTracking now) "Tracking search error: " sec4 st3

/-!
## Helper lemmas
-/

theorem dedupFirst_sublist : ∀ (l seen : List String), List.Sublist (dedupFirst seen l) l
  | [], _ => by simp [dedupFirst]
  | x :: xs, seen => by
    simp only [dedupFirst]
    split
    · exact (dedupFirst_sublist xs seen).cons x
    · exact (dedupFirst_sublist xs (x :: seen)).cons₂ x

theorem dedupFirst_mem : ∀ (l seen : List String) (x : String),
    x ∈ dedupFirst seen l ↔ x ∈ l ∧ x ∉ seen
  | [], seen, x => by simp [dedupFirst]
  | y :: ys, seen, x => by
    simp only [dedupFirst]
    by_cases hy : y ∈ seen
    · rw [if_pos hy, dedupFirst_mem ys seen x]
      simp only [List.mem_cons]
      constructor
      · rintro ⟨h1, h2⟩
        exact ⟨Or.inr h1, h2⟩
      · rintro ⟨rfl | h1, h2⟩
        · exact absurd hy h2
        · exact ⟨h1, h2⟩
    · rw [if_neg hy]
      simp only [List.mem_cons, dedupFirst_mem ys (y :: seen) x]
      constructor
      · rintro (rfl | ⟨h1, h2⟩)
        · exact ⟨Or.inl rfl, hy⟩
        · exact ⟨Or.inr h1, fun hx => h2 (Or.inr hx)⟩
      · rintro ⟨h1, h2⟩
        by_cases hxy : x = y
        · exact Or.inl hxy
        · rcases h1 with rfl | h1
          · exact Or.inl rfl
          · refine Or.inr ⟨h1, fun hx => ?_⟩
            rcases hx with h | h
            · exact hxy h
            · exact h2 h

theorem dedupFirst_nodup : ∀ (l seen : List String), (dedupFirst seen l).Nodup
  | [], _ => by simp [dedupFirst]
  | y :: ys, seen => by
    simp only [dedupFirst]
    split
    · exact dedupFirst_nodup ys seen
    · refine List.nodup_cons.mpr ⟨fun hmem => ?_, dedupFirst_nodup ys (y :: seen)⟩
      exact ((dedupFirst_mem ys (y :: seen) y).mp hmem).2 (List.mem_cons_self y seen)

theorem dedupFirst_pairwise : ∀ (l seen : List String),
    (dedupFirst seen l).Pairwise (fun a b => l.indexOf a < l.indexOf b)
  | [], _ => by simp [dedupFirst]
  | y :: ys, seen => by
    simp only [dedupFirst]
    by_cases hy : y ∈ seen
    · rw [if_pos hy]
      refine List.Pairwise.imp_of_mem ?_ (dedupFirst_pairwise ys seen)
      intro a b ha hb hab
      have ha2 := (dedupFirst_mem ys seen a).mp ha
      have hb2 := (dedupFirst_mem ys seen b).mp hb
      have hay : y ≠ a := fun h => ha2.2 (h ▸ hy)
      have hby : y ≠ b := fun h => hb2.2 (h ▸ hy)
      rw [List.indexOf_cons_ne ys hay, List.indexOf_cons_ne ys hby]
      exact Nat.succ_lt_succ hab
    · rw [if_neg hy]
      refine List.Pairwise.cons ?_ ?_
      · intro b hb
        have hb2 := (dedupFirst_mem ys (y :: seen) b).mp hb
        have hby : y ≠ b := fun h => hb2.2 (by rw [← h]; exact List.mem_cons_self y seen)
        rw [List.indexOf_cons_self, List.indexOf_cons_ne ys hby]
        exact Nat.succ_pos _
      · refine List.Pairwise.imp_of_mem ?_ (dedupFirst_pairwise ys (y :: seen))
        intro a b ha hb hab
        have ha2 := (dedupFirst_mem ys (y :: seen) a).mp ha
        have hb2 := (dedupFirst_mem ys (y :: seen) b).mp hb
        have hay : y ≠ a := fun h => ha2.2 (by rw [← h]; exact List.mem_cons_self y seen)
        have hby : y ≠ b := fun h => hb2.2 (by rw [← h]; exact List.mem_cons_self y seen)
        rw [List.indexOf_cons_ne ys hay, List.indexOf_cons_ne ys hby]
        exact Nat.succ_lt_succ hab

/-- The timestamp column paired with a checkpoint flag. -/
def checkpointTs : Checkpoint → Order → Option Nat
  | .payment_link_sent, o => o.payment_link_sent_at
  | .payment_received, o => o.payment_received_at
  | .sent_to_warehouse, o => o.sent_to_warehouse_at
  | .warehouse_confirmed, o => o.warehouse_confirmed_at
  | .bol_sent, o => o.bol_sent_at
  | .is_complete, o => o.completed_at

/-- The boolean flag of a checkpoint. -/
def checkpointFlag : Checkpoint → Order → Bool
  | .payment_link_sent, o => o.payment_link_sent
  | .payment_received, o => o.payment_received
  | .sent_to_warehouse, o => o.sent_to_warehouse
  | .warehouse_confirmed, o => o.warehouse_confirmed
  | .bol_sent, o => o.bol_sent
  | .is_complete, o => o.is_complete

theorem checkpointTs_setFlagTs (cp : Checkpoint) (now : Nat) (o : Order) :
    checkpointTs cp (setFlagTs cp now o) = some now := by
  cases cp <;> rfl

theorem mem_updateOrders {oid : String} {f : Order → Order} {l : List Order} {o : Order}
    (h : o ∈ updateOrders oid f l) :
    (∃ r, r ∈ l ∧ r.order_id = oid ∧ o = f r) ∨ (o ∈ l ∧ o.order_id ≠ oid) := by
  obtain ⟨r, hr, heq⟩ := List.mem_map.mp h
  by_cases hid : r.order_id = oid
  · rw [if_pos hid] at heq
    exact Or.inl ⟨r, hr, hid, heq.symm⟩
  · rw [if_neg hid] at heq
    subst heq
    exact Or.inr ⟨hr, hid⟩

/-!
## Claim theorems
-/

/-- C5: `extract_order_ids` returns exactly `["5317", "5319"]` (in that
order) on `"5317 & 5319 G&B CFC"` and exactly `["5184"]` on
`"5184 Broke and Poor CFC"`; for every input its result has no duplicates,
is a subsequence of the raw pattern hits, keeps exactly their members, and
lists them in order of first occurrence (strictly increasing first-match
index).  Totality of the Lean function reflects that the Python function
never raises; the empty description yields the empty list. -/
theorem extract_order_ids_c5 :
    extract_order_ids "5317 & 5319 G&B CFC" = ["5317", "5319"] ∧
    extract_order_ids "5184 Broke and Poor CFC" = ["5184"] ∧
    extract_order_ids "" = [] ∧
    ∀ s : String,
      (extract_order_ids s).Nodup ∧
      List.Sublist (extract_order_ids s) (rawOrderIds s) ∧
      (∀ x, x ∈ extract_order_ids s ↔ x ∈ rawOrderIds s) ∧
      (extract_order_ids s).Pairwise
        (fun a b => (rawOrderIds s).indexOf a < (rawOrderIds s).indexOf b) := by
  refine ⟨by decide, by decide, by decide, fun s => ?_⟩
  by_cases hs : s = ""
  · subst hs
    have hraw : rawOrderIds "" = [] := by decide
    simp [extract_order_ids, hraw]
  · simp only [extract_order_ids, if_neg hs]
    refine ⟨dedupFirst_nodup _ _, dedupFirst_sublist _ _, fun x => ?_,
      dedupFirst_pairwise _ _⟩
    rw [dedupFirst_mem]
    simp

/-- C6 (code-bug evidence): on the body
`"4943 SE 10th Place\nKeystone Heights  FL  32656"` the address parser of
`parse_b2bwave_email` produces the claimed street, state and zip, but the
extracted city is `"th Place\nKeystone Heights"` (the lazy
`[A-Za-z][A-Za-z\s]+?` city group of the first city/state/zip pattern
starts inside `"10th"` and swallows the newline), not the claimed
`"Keystone Heights"`. -/
theorem parse_b2bwave_email_address_c6 :
    parse_b2bwave_email_address "4943 SE 10th Place\nKeystone Heights  FL  32656" =
      { street := some "4943 SE 10th Place", city := some "th Place\nKeystone Heights",
        state := some "FL", zip_code := some "32656" } ∧
    (some "th Place\nKeystone Heights" : Option String) ≠ some "Keystone Heights" := by
  exact ⟨by decide, by decide⟩

/-- C9: the trusted-unpaid alert sweep is idempotent: running
`check_payment_alerts` a second time against the alert table produced by a
first run (with the orders table and clock unchanged) creates zero new
alerts and leaves the alert table exactly as the first run left it. -/
theorem check_payment_alerts_idem (orders : List Order) (alerts : List Alert) (now : Nat) :
    check_payment_alerts orders (check_payment_alerts orders alerts now).2 now
      = (0, (check_payment_alerts orders alerts now).2) := by
  have hA1eq : (check_payment_alerts orders alerts now).2
      = alerts ++ (orders.filter (fun o =>
          trustedUnpaidDue now o && !(hasOpenTrustedAlert alerts o.order_id))).map
            (mkTrustedUnpaidAlert now) := rfl
  have hfil :
      orders.filter (fun o =>
        trustedUnpaidDue now o &&
          !(hasOpenTrustedAlert (check_payment_alerts orders alerts now).2 o.order_id)) = [] := by
    refine List.filter_eq_nil_iff.mpr ?_
    intro o ho hcontra
    rw [Bool.and_eq_true, Bool.not_eq_true'] at hcontra
    obtain ⟨hdue, hnot⟩ := hcontra
    have hopen : hasOpenTrustedAlert (check_payment_alerts orders alerts now).2 o.order_id
        = true := by
      rw [hA1eq]
      simp only [hasOpenTrustedAlert, List.any_append]
      by_cases h0 : hasOpenTrustedAlert alerts o.order_id = true
      · rw [hasOpenTrustedAlert] at h0
        rw [h0, Bool.true_or]
      · have h0f : hasOpenTrustedAlert alerts o.order_id = false := Bool.eq_false_iff.mpr h0
        have hq : o ∈ orders.filter (fun o2 =>
            trustedUnpaidDue now o2 && !(hasOpenTrustedAlert alerts o2.order_id)) :=
          List.mem_filter.mpr ⟨ho, by rw [hdue, h0f]; rfl⟩
        have hmem := List.mem_map_of_mem (mkTrustedUnpaidAlert now) hq
        rw [Bool.or_eq_true]
        refine Or.inr (List.any_eq_true.mpr ⟨mkTrustedUnpaidAlert now o, hmem, ?_⟩)
        simp [mkTrustedUnpaidAlert]
    rw [hopen] at hnot
    exact Bool.noConfusion hnot
  rw [show check_payment_alerts orders (check_payment_alerts orders alerts now).2 now =
      ((orders.filter (fun o => trustedUnpaidDue now o &&
          !(hasOpenTrustedAlert (check_payment_alerts orders alerts now).2 o.order_id))).length,
       (check_payment_alerts orders alerts now).2 ++
         (orders.filter (fun o => trustedUnpaidDue now o &&
           !(hasOpenTrustedAlert (check_payment_alerts orders alerts now).2 o.order_id))).map
             (mkTrustedUnpaidAlert now)) from rfl]
  rw [hfil]
  simp

/-- An order whose `payment_link_sent` flag is already true (stamped at
tick 5); used to exercise duplicate-signal handling. -/
def c3Order : Order :=
  { order_id := "5307", payment_link_sent := true, payment_link_sent_at := some 5 }

/-- C3 counterexample: a repeated checkpoint signal is not a no-op.
Re-applying `payment_link_sent` through `update_checkpoint` to an order
already marked at tick 5 re-stamps the paired timestamp to the new clock
(9) and appends a second `payment_link_sent` event, contradicting the
claim that the flag/timestamp stay unchanged and that no duplicate event
of the same kind is appended. -/
theorem update_checkpoint_not_idempotent_c3 :
    c3Order.payment_link_sent = true ∧
    c3Order.payment_link_sent_at = some 5 ∧
    update_checkpoint [c3Order] [⟨"5307", "payment_link_sent", "api"⟩] "5307"
        Checkpoint.payment_link_sent none "api" 9 =
      .ok ([{ c3Order with payment_link_sent_at := some 9, updated_at := 9 }],
           [⟨"5307", "payment_link_sent", "api"⟩, ⟨"5307", "payment_link_sent", "api"⟩]) ∧
    (some 9 : Option Nat) ≠ some 5 := by
  exact ⟨rfl, rfl, rfl, by decide⟩

/-- C3 amended: flag-guarded signal detectors are idempotent — the Gmail
payment-link handler returns already-marked (`false`) for an order whose
`payment_link_sent` is already true, changing no table and appending no
event.  The generic checkpoint endpoint `update_checkpoint`, however,
performs no already-marked check: on any existing order it appends another
event of the same kind and stamps the paired timestamp to the current
clock. -/
theorem duplicate_signal_c3_amended :
    (∀ (orders : List Order) (events : List OrderEvent) (oid : String) (now : Nat)
       (row : Order), findOrder orders oid = some row → row.payment_link_sent = true →
       update_order_payment_link_sent orders events oid now = (false, orders, events)) ∧
    (∀ (orders : List Order) (events : List OrderEvent) (oid : String) (cp : Checkpoint)
       (pa : Option ℚ) (src : String) (now : Nat) (res : List Order × List OrderEvent),
       update_checkpoint orders events oid cp pa src now = .ok res →
       res.2 = events ++ [⟨oid, checkpointName cp, src⟩] ∧
       ∀ o ∈ res.1, o.order_id = oid → checkpointTs cp o = some now) := by
  constructor
  · intro orders events oid now row hfind hmarked
    rw [update_order_payment_link_sent, hfind]
    simp [hmarked]
  · intro orders events oid cp pa src now res hok
    simp only [update_checkpoint] at hok
    split at hok
    · simp at hok
    · rw [Except.ok.injEq] at hok
      subst hok
      refine ⟨rfl, fun o ho hid => ?_⟩
      rcases mem_updateOrders ho with ⟨r, _, _, rfl⟩ | ⟨_, hne⟩
      · exact checkpointTs_setFlagTs cp now _
      · exact absurd hid hne

/-- C3 amended, witnessed at a concrete database: the Gmail handler on the
already-marked order `c3Order` is a silent no-op, and `update_checkpoint`
on the same database appends the duplicate event and re-stamps the
timestamp to 9. -/
theorem duplicate_signal_c3_amended_witness :
    update_order_payment_link_sent [c3Order] [] "5307" 9 = (false, [c3Order], []) ∧
    (([{ c3Order with payment_link_sent_at := some 9, updated_at := 9 }],
       [⟨"5307", "payment_link_sent", "api"⟩]) :
        List Order × List OrderEvent).2 =
      ([] : List OrderEvent) ++ [⟨"5307", "payment_link_sent", "api"⟩] ∧
    ∀ o ∈ [{ c3Order with payment_link_sent_at := some 9, updated_at := 9 }],
      o.order_id = "5307" → checkpointTs Checkpoint.payment_link_sent o = some 9 := by
  have h2 := duplicate_signal_c3_amended.2 [c3Order] [] "5307" Checkpoint.payment_link_sent
    none "api" 9
    ([{ c3Order with payment_link_sent_at := some 9, updated_at := 9 }],
     [⟨"5307", "payment_link_sent", "api"⟩]) rfl
  exact ⟨duplicate_signal_c3_amended.1 [c3Order] [] "5307" 9 c3Order rfl rfl, h2.1, h2.2⟩

/-- An order with a previously resolved first warehouse slot. -/
def c7Order : Order := { order_id := "5261", warehouse_1 := some "GHI" }

/-- C7 counterexample: re-parsing order 5261 through the `/parse-email`
update path with a newly resolved warehouse `"DL Cabinetry"` overwrites
the previously assigned non-null slot `warehouse_1 = "GHI"` (the update
uses `COALESCE(new, warehouse_1)`, so a non-null new value wins). -/
theorem parse_email_overwrites_warehouse_c7 :
    c7Order.warehouse_1 = some "GHI" ∧
    (parse_email [c7Order] [] "5261" {} (some "DL Cabinetry") none 0 false 9).2.1 =
      [{ c7Order with warehouse_1 := some "DL Cabinetry", updated_at := 9 }] ∧
    (some "DL Cabinetry" : Option String) ≠ some "GHI" := by
  exact ⟨rfl, by decide, by decide⟩

/-- C7 amended: the fill-empty-slots-only merge policy holds on the
B2BWave upsert path — the conflict update takes
`COALESCE(orders.warehouse_n, EXCLUDED.warehouse_n)`, so a non-null stored
slot is never overwritten, rowwise and tablewise.  On the `/parse-email`
update path the `COALESCE` arguments are reversed: the slot becomes
`COALESCE(new, old)`, so a newly resolved non-null warehouse replaces the
stored slot and only a null new value leaves it unchanged. -/
theorem warehouse_merge_c7_amended :
    (∀ (f : B2BFields) (now : Nat) (o : Order),
       (b2bConflictUpdate f now o).warehouse_1 = coalesce o.warehouse_1 f.warehouse_1 ∧
       (b2bConflictUpdate f now o).warehouse_2 = coalesce o.warehouse_2 f.warehouse_2) ∧
    (∀ (f : B2BFields) (now : Nat) (o : Order) (w : String),
       o.warehouse_1 = some w → (b2bConflictUpdate f now o).warehouse_1 = some w) ∧
    (∀ (orders : List Order) (events : List OrderEvent) (f : B2BFields) (now : Nat),
       (findOrder orders f.order_id).isSome →
       List.Forall₂ (fun o o2 =>
         (∀ w, o.warehouse_1 = some w → o2.warehouse_1 = some w) ∧
         (∀ w, o.warehouse_2 = some w → o2.warehouse_2 = some w))
         orders (sync_order_from_b2bwave orders events f now).1) ∧
    (∀ (p : ParsedFields) (w1 w2 : Option String) (now : Nat) (o : Order),
       (parseEmailUpdateRow p w1 w2 now o).warehouse_1 = coalesce w1 o.warehouse_1 ∧
       (parseEmailUpdateRow p w1 w2 now o).warehouse_2 = coalesce w2 o.warehouse_2 ∧
       (w1 = none → (parseEmailUpdateRow p w1 w2 now o).warehouse_1 = o.warehouse_1)) := by
  refine ⟨fun f now o => ⟨rfl, rfl⟩, ?_, ?_, ?_⟩
  · intro f now o w hw
    show coalesce o.warehouse_1 f.warehouse_1 = some w
    rw [hw]
    rfl
  · intro orders events f now hfound
    obtain ⟨row, hrow⟩ := Option.isSome_iff_exists.mp hfound
    have hs : (sync_order_from_b2bwave orders events f now).1
        = updateOrders f.order_id (b2bConflictUpdate f now) orders := by
      simp [sync_order_from_b2bwave, hrow]
    rw [hs]
    simp only [updateOrders]
    rw [List.forall₂_map_right_iff]
    refine List.forall₂_same.mpr fun o ho => ?_
    by_cases hid : o.order_id = f.order_id
    · rw [if_pos hid]
      constructor
      · intro w hw
        show coalesce o.warehouse_1 f.warehouse_1 = some w
        rw [hw]; rfl
      · intro w hw
        show coalesce o.warehouse_2 f.warehouse_2 = some w
        rw [hw]; rfl
    · rw [if_neg hid]
      exact ⟨fun w hw => hw, fun w hw => hw⟩
  · intro p w1 w2 now o
    refine ⟨rfl, rfl, fun h => ?_⟩
    show coalesce w1 o.warehouse_1 = o.warehouse_1
    rw [h]
    rfl

/-- C7 amended, witnessed: with the stored slot `warehouse_1 = "GHI"` and
a B2BWave payload resolving `"DL Cabinetry"`, the upsert keeps `"GHI"` on
the row and (tablewise) on the one-order database. -/
theorem warehouse_merge_c7_amended_witness :
    (b2bConflictUpdate { order_id := "5261", warehouse_1 := some "DL Cabinetry" } 9
        c7Order).warehouse_1 = some "GHI" ∧
    List.Forall₂ (fun o o2 =>
        (∀ w, o.warehouse_1 = some w → o2.warehouse_1 = some w) ∧
        (∀ w, o.warehouse_2 = some w → o2.warehouse_2 = some w))
      [c7Order]
      (sync_order_from_b2bwave [c7Order] []
        { order_id := "5261", warehouse_1 := some "DL Cabinetry" } 9).1 := by
  refine ⟨warehouse_merge_c7_amended.2.1 _ 9 c7Order "GHI" rfl, ?_⟩
  exact warehouse_merge_c7_amended.2.2.1 [c7Order] []
    { order_id := "5261", warehouse_1 := some "DL Cabinetry" } 9 (by decide)

theorem dprLoop_some : ∀ (l : List Order) (acc : Option Order) (amount : ℚ)
    (cn : Option String) (o : Order), dprLoop amount cn l acc = some o →
    acc = some o ∨ (o ∈ l ∧ o.order_total.getD 0 ≠ 0 ∧ o.order_total.getD 0 ≤ amount)
  | [], acc, amount, cn, o => fun h => Or.inl h
  | x :: rest, acc, amount, cn, o => by
    intro h
    simp only [dprLoop] at h
    by_cases hq : (x.order_total.getD 0 ≠ 0) && (x.order_total.getD 0 ≤ amount)
    · rw [if_pos hq] at h
      rw [Bool.and_eq_true, decide_eq_true_eq, decide_eq_true_eq] at hq
      split at h
      · split at h
        · rw [Option.some.injEq] at h
          subst h
          exact Or.inr ⟨List.mem_cons_self x rest, hq.1, hq.2⟩
        · rcases dprLoop_some rest acc amount cn o h with h2 | h2
          · exact Or.inl h2
          · exact Or.inr ⟨List.mem_cons_of_mem x h2.1, h2.2⟩
      · split at h
        · rcases dprLoop_some rest (some x) amount cn o h with h2 | h2
          · rw [Option.some.injEq] at h2
            subst h2
            exact Or.inr ⟨List.mem_cons_self x rest, hq.1, hq.2⟩
          · exact Or.inr ⟨List.mem_cons_of_mem x h2.1, h2.2⟩
        · rcases dprLoop_some rest acc amount cn o h with h2 | h2
          · exact Or.inl h2
          · exact Or.inr ⟨List.mem_cons_of_mem x h2.1, h2.2⟩
    · rw [if_neg hq] at h
      rcases dprLoop_some rest acc amount cn o h with h2 | h2
      · exact Or.inl h2
      · exact Or.inr ⟨List.mem_cons_of_mem x h2.1, h2.2⟩

/-- An unpaid order with a declared total of 100 for customer John Smith. -/
def c1Order : Order :=
  { order_id := "5300", customer_name := some "John Smith", order_total := some 100 }

/-- C1 counterexample: a payment of 96 from "John Smith" satisfies the
claimed acceptance rule against the unpaid order 5300 (declared total 100:
96 is at least 95 percent of it, the customer name contains the payer's
first token, the order is unpaid), yet the `detect-payment-received`
endpoint — one of the two matchers the claim covers — reports it
unmatched and updates nothing, because its actual threshold is 100 percent
of the total. -/
theorem payment_matching_c1_counterexample :
    ((95 : ℚ) / 100) * 100 ≤ 96 ∧
    c1Order.payment_received = false ∧
    gmailNameFilter (firstToken "John Smith") c1Order = true ∧
    reSearch1 dprAmountRe "$96 payment received from John Smith" = some "96" ∧
    (reSearch1 dprNameRe "$96 payment received from John Smith").map pyStrip
      = some "John Smith" ∧
    detectPaymentReceivedMatch [c1Order] [] 96 (some "John Smith") 7
      = (none, [c1Order], []) := by
  exact ⟨by norm_num, rfl, by decide, by decide, by decide, by decide⟩

/-- C1 amended: the Gmail heuristic matcher `match_payment_to_order`
behaves exactly as the claim states — every candidate it considers is
unpaid and name-matched on the payer's first token (case-insensitive
substring of customer or company name), a match happens if and only if
some candidate's total satisfies `amount >= total * 0.95`, the first such
candidate is the one updated, and with no qualifying candidate the
payment is reported unmatched with no order updated.  The
`detect-payment-received` endpoint, by contrast, accepts only when the
amount reaches 100 percent of a candidate's (non-zero) total, and reports
unmatched with unchanged tables otherwise. -/
theorem payment_matching_c1_amended :
    (∀ (orders : List Order) (customer_name : String) (o : Order),
       o ∈ gmailCandidates orders customer_name →
       o.payment_received = false ∧ gmailNameFilter (firstToken customer_name) o = true) ∧
    (∀ (orders : List Order) (events : List OrderEvent) (amount : ℚ)
       (customer_name : String) (now : Nat),
       (∀ o ∈ gmailCandidates orders customer_name, gmailAmountRule amount o = false) →
       match_payment_to_order orders events amount customer_name now = (false, orders, events)) ∧
    (∀ (orders : List Order) (events : List OrderEvent) (amount : ℚ)
       (customer_name : String) (now : Nat),
       ((match_payment_to_order orders events amount customer_name now).1 = true ↔
        ∃ o ∈ gmailCandidates orders customer_name, gmailAmountRule amount o = true)) ∧
    (∀ (orders : List Order) (events : List OrderEvent) (amount : ℚ)
       (customer_name : String) (now : Nat),
       (match_payment_to_order orders events amount customer_name now).1 = true →
       ∃ o ∈ gmailCandidates orders customer_name, gmailAmountRule amount o = true ∧
         (match_payment_to_order orders events amount customer_name now).2.1
           = updateOrders o.order_id (gmailMarkPaid amount now) orders ∧
         (match_payment_to_order orders events amount customer_name now).2.2
           = events ++ [⟨o.order_id, "payment_received", "gmail_sync"⟩]) ∧
    (∀ (orders : List Order) (events : List OrderEvent) (amount : ℚ)
       (customer_name : Option String) (now : Nat),
       (detectPaymentReceivedMatch orders events amount customer_name now).1 = none →
       detectPaymentReceivedMatch orders events amount customer_name now
         = (none, orders, events)) ∧
    (∀ (orders : List Order) (events : List OrderEvent) (amount : ℚ)
       (customer_name : Option String) (now : Nat) (oid : String),
       (detectPaymentReceivedMatch orders events amount customer_name now).1 = some oid →
       ∃ o ∈ dprCandidates orders, o.order_id = oid ∧
         o.order_total.getD 0 ≠ 0 ∧ o.order_total.getD 0 ≤ amount) := by
  refine ⟨?_, ?_, ?_, ?_, ?_, ?_⟩
  · intro orders customer_name o ho
    have h1 : o ∈ (sortByDateDesc orders).filter
        (fun o => !o.payment_received && gmailNameFilter (firstToken customer_name) o) :=
      List.take_subset 5 _ ho
    have h2 := (List.mem_filter.mp h1).2
    rw [Bool.and_eq_true, Bool.not_eq_true'] at h2
    exact ⟨h2.1, h2.2⟩
  · intro orders events amount customer_name now h
    have hnone : (gmailCandidates orders customer_name).find? (gmailAmountRule amount)
        = none :=
      List.find?_eq_none.mpr (fun x hx => by rw [h x hx]; exact Bool.false_ne_true)
    simp [match_payment_to_order, hnone]
  · intro orders events amount customer_name now
    constructor
    · intro h
      cases hfind : (gmailCandidates orders customer_name).find? (gmailAmountRule amount) with
      | none => simp [match_payment_to_order, hfind] at h
      | some o =>
        exact ⟨o, List.mem_of_find?_eq_some hfind, List.find?_some hfind⟩
    · intro ⟨o, ho, hrule⟩
      cases hfind : (gmailCandidates orders customer_name).find? (gmailAmountRule amount) with
      | none =>
        exact absurd hrule (by
          have := List.find?_eq_none.mp hfind o ho
          simp [this])
      | some o2 => simp [match_payment_to_order, hfind]
  · intro orders events amount customer_name now h
    cases hfind : (gmailCandidates orders customer_name).find? (gmailAmountRule amount) with
    | none => simp [match_payment_to_order, hfind] at h
    | some o =>
      refine ⟨o, List.mem_of_find?_eq_some hfind, List.find?_some hfind, ?_, ?_⟩
      · simp [match_payment_to_order, hfind]
      · simp [match_payment_to_order, hfind]
  · intro orders events amount customer_name now h
    cases hl : dprLoop amount customer_name (dprCandidates orders) none with
    | none => simp [detectPaymentReceivedMatch, hl]
    | some m => simp [detectPaymentReceivedMatch, hl] at h
  · intro orders events amount customer_name now oid h
    cases hl : dprLoop amount customer_name (dprCandidates orders) none with
    | none => simp [detectPaymentReceivedMatch, hl] at h
    | some m =>
      have hoid : m.order_id = oid := by
        simp [detectPaymentReceivedMatch, hl] at h
        exact h
      rcases dprLoop_some (dprCandidates orders) none amount customer_name m hl with h2 | h2
      · exact absurd h2 (by simp)
      · exact ⟨m, h2.1, hoid, h2.2⟩

/-- An unpaid order with a declared total of 200 for customer Gerald
Thomas (amounts below 190 fail the 95-percent rule). -/
def c1bOrder : Order :=
  { order_id := "5290", customer_name := some "Gerald Thomas", order_total := some 200 }

/-- C1 amended, witnessed concretely: a payment of 100 from Gerald Thomas
fails the 95-percent rule against every candidate, so the Gmail matcher
reports unmatched and changes nothing; and the John Smith payment of 96
that the detect endpoint leaves unmatched indeed changes nothing there. -/
theorem payment_matching_c1_amended_witness :
    match_payment_to_order [c1bOrder] [] 100 "Gerald Thomas" 3 = (false, [c1bOrder], []) ∧
    detectPaymentReceivedMatch [c1Order] [] 96 (some "John Smith") 7
      = (none, [c1Order], []) ∧
    (c1bOrder.payment_received = false ∧
      gmailNameFilter (firstToken "Gerald Thomas") c1bOrder = true) := by
  have hcand : gmailCandidates [c1bOrder] "Gerald Thomas" = [c1bOrder] := by decide
  have hrule : gmailAmountRule 100 c1bOrder = false := by
    simp only [gmailAmountRule, c1bOrder]
    rw [decide_eq_false_iff_not]
    norm_num
  have hall : ∀ o ∈ gmailCandidates [c1bOrder] "Gerald Thomas",
      gmailAmountRule 100 o = false := by
    intro o ho
    rw [hcand] at ho
    have := List.mem_singleton.mp ho
    subst this
    exact hrule
  have hmem : c1bOrder ∈ gmailCandidates [c1bOrder] "Gerald Thomas" := by
    rw [hcand]
    exact List.mem_singleton.mpr rfl
  refine ⟨payment_matching_c1_amended.2.1 [c1bOrder] [] 100 "Gerald Thomas" 3 hall,
    payment_matching_c1_amended.2.2.2.2.1 [c1Order] [] 96 (some "John Smith") 7 (by decide),
    payment_matching_c1_amended.1 [c1bOrder] "Gerald Thomas" c1bOrder hmem⟩

/-- The no-exception oracle: every per-order Square transaction commits. -/
def noexc : String → String → Option String := fun _ _ => none

theorem extract_order_ids_nodup (d : String) : (extract_order_ids d).Nodup := by
  rw [extract_order_ids]
  split
  · exact List.nodup_nil
  · exact dedupFirst_nodup _ _

theorem squareApplyPaid_order_id (n : Nat) (a : ℚ) (s : Option ℚ) (t : Nat) (o : Order) :
    (squareApplyPaid n a s t o).order_id = o.order_id := rfl

theorem squareRowUpdate_order_id (n : Nat) (a : ℚ) (t : Nat) (o : Order) :
    (squareRowUpdate n a t o).order_id = o.order_id := rfl

theorem squareRowUpdate_payment_received (n : Nat) (a : ℚ) (t : Nat) (o : Order) :
    (squareRowUpdate n a t o).payment_received = true := rfl

theorem findOrder_eq_of_nodup : ∀ {l : List Order},
    (l.map Order.order_id).Nodup → ∀ {o : Order}, o ∈ l → findOrder l o.order_id = some o := by
  intro l
  induction l with
  | nil => intro _ o ho; cases ho
  | cons x xs ih =>
    intro hN o ho
    rw [List.map_cons, List.nodup_cons] at hN
    rcases List.mem_cons.mp ho with rfl | ho2
    · rw [findOrder, List.find?_cons_of_pos _ (by simp)]
    · have hne : ¬(x.order_id = o.order_id) := by
        intro he
        exact hN.1 (he ▸ List.mem_map_of_mem Order.order_id ho2)
      rw [findOrder, List.find?_cons_of_neg _ (by simpa using hne)]
      exact ih hN.2 ho2

theorem processOneId_orders_noexc (p : RawPayment) (nIds : Nat) (now : Nat)
    (st : SqState) (oid : String) (hN : (st.orders.map Order.order_id).Nodup) :
    (processOneId p nIds noexc now st oid).orders
      = st.orders.map (fun o =>
          if o.order_id = oid ∧ o.payment_received = false
          then squareRowUpdate nIds p.amount now o else o) := by
  simp only [processOneId, noexc]
  cases hfind : findOrder st.orders oid with
  | none =>
    have hno : ∀ o ∈ st.orders, ¬(o.order_id = oid) := by
      intro o ho
      have := List.find?_eq_none.mp hfind o ho
      simpa using this
    simp only
    symm
    calc st.orders.map (fun o =>
          if o.order_id = oid ∧ o.payment_received = false
          then squareRowUpdate nIds p.amount now o else o)
        = st.orders.map (fun o => o) := by
          refine List.map_congr_left fun o ho => ?_
          rw [if_neg]
          intro hc
          exact hno o ho hc.1
      _ = st.orders := List.map_id' st.orders
  | some row =>
    cases hrec : row.payment_received with
    | true =>
      simp only [hrec, if_pos]
      symm
      calc st.orders.map (fun o =>
            if o.order_id = oid ∧ o.payment_received = false
            then squareRowUpdate nIds p.amount now o else o)
          = st.orders.map (fun o => o) := by
            refine List.map_congr_left fun o ho => ?_
            rw [if_neg]
            rintro ⟨hid, hrec2⟩
            have heq : o = row := by
              have h1 := findOrder_eq_of_nodup hN ho
              rw [hid, hfind] at h1
              exact (Option.some.inj h1).symm
            rw [heq, hrec] at hrec2
            exact Bool.noConfusion hrec2
        _ = st.orders := List.map_id' st.orders
    | false =>
      simp only [hrec]
      simp only [Bool.false_eq_true, if_false, updateOrders]
      refine List.map_congr_left fun o ho => ?_
      by_cases hid : o.order_id = oid
      · have heq : o = row := by
          have h1 := findOrder_eq_of_nodup hN ho
          rw [hid, hfind] at h1
          exact (Option.some.inj h1).symm
        rw [if_pos hid, if_pos ⟨hid, by rw [heq]; exact hrec⟩, squareRowUpdate]
        rw [← heq]
      · rw [if_neg hid, if_neg (fun hc => hid hc.1)]

theorem processOneId_map_order_id (p : RawPayment) (nIds : Nat)
    (exc : String → String → Option String) (now : Nat) (st : SqState) (oid : String) :
    (processOneId p nIds exc now st oid).orders.map Order.order_id
      = st.orders.map Order.order_id := by
  simp only [processOneId]
  cases exc p.payment_id oid with
  | some e => rfl
  | none =>
    cases findOrder st.orders oid with
    | none => rfl
    | some row =>
      cases hrec : row.payment_received with
      | true => simp [hrec]
      | false =>
        simp only [hrec, Bool.false_eq_true, if_false, updateOrders, List.map_map]
        refine List.map_congr_left fun o _ => ?_
        by_cases hid : o.order_id = oid
        · simp [Function.comp, hid, squareApplyPaid_order_id]
        · simp [Function.comp, hid]

theorem squareFold_orders_noexc : ∀ (ids : List String) (p : RawPayment) (nIds now : Nat)
    (st : SqState), ids.Nodup → (st.orders.map Order.order_id).Nodup →
    (ids.foldl (processOneId p nIds noexc now) st).orders
      = st.orders.map (fun o =>
          if o.order_id ∈ ids ∧ o.payment_received = false
          then squareRowUpdate nIds p.amount now o else o)
  | [], p, nIds, now, st => by
    intro _ _
    simp only [List.foldl_nil]
    symm
    calc st.orders.map (fun o =>
          if o.order_id ∈ ([] : List String) ∧ o.payment_received = false
          then squareRowUpdate nIds p.amount now o else o)
        = st.orders.map (fun o => o) := by
          refine List.map_congr_left fun o _ => ?_
          rw [if_neg (fun hc => List.not_mem_nil _ hc.1)]
      _ = st.orders := List.map_id' st.orders
  | x :: xs, p, nIds, now, st => by
    intro hids hN
    rw [List.nodup_cons] at hids
    have h1 := processOneId_orders_noexc p nIds now st x hN
    have hNid : ((processOneId p nIds noexc now st x).orders.map Order.order_id)
        = st.orders.map Order.order_id := processOneId_map_order_id p nIds noexc now st x
    have hN1 : ((processOneId p nIds noexc now st x).orders.map Order.order_id).Nodup := by
      rw [hNid]; exact hN
    rw [List.foldl_cons]
    rw [squareFold_orders_noexc xs p nIds now _ hids.2 hN1, h1, List.map_map]
    refine List.map_congr_left fun o _ => ?_
    simp only [Function.comp_apply]
    by_cases hc1 : o.order_id = x ∧ o.payment_received = false
    · rw [if_pos hc1]
      rw [if_neg (by
        rintro ⟨_, h⟩
        rw [squareRowUpdate_payment_received] at h
        exact Bool.noConfusion h)]
      rw [if_pos ⟨List.mem_cons.mpr (Or.inl hc1.1), hc1.2⟩]
    · rw [if_neg hc1]
      by_cases hc2 : o.order_id ∈ xs ∧ o.payment_received = false
      · rw [if_pos hc2, if_pos ⟨List.mem_cons_of_mem x hc2.1, hc2.2⟩]
      · rw [if_neg hc2, if_neg]
        rintro ⟨hmem, hrecf⟩
        rcases List.mem_cons.mp hmem with h | h
        · exact hc1 ⟨h, hrecf⟩
        · exact hc2 ⟨h, hrecf⟩

theorem processPayment_orders_noexc (st : SqState) (p : RawPayment) (now : Nat)
    (hN : (st.orders.map Order.order_id).Nodup) :
    (processPayment noexc now st p).orders
      = st.orders.map (fun o =>
          if o.order_id ∈ extract_order_ids p.description ∧ o.payment_received = false
          then squareRowUpdate (extract_order_ids p.description).length p.amount now o
          else o) := by
  by_cases hids : extract_order_ids p.description = []
  · have hres : (processPayment noexc now st p).orders = st.orders := by
      simp [processPayment, hids]
    rw [hres]
    symm
    calc st.orders.map (fun o =>
          if o.order_id ∈ extract_order_ids p.description ∧ o.payment_received = false
          then squareRowUpdate (extract_order_ids p.description).length p.amount now o else o)
        = st.orders.map (fun o => o) := by
          refine List.map_congr_left fun o _ => ?_
          rw [if_neg]
          rintro ⟨hmem, _⟩
          rw [hids] at hmem
          exact List.not_mem_nil _ hmem
      _ = st.orders := List.map_id' st.orders
  · simp only [processPayment, if_neg hids]
    exact squareFold_orders_noexc _ p _ now st (extract_order_ids_nodup _) hN

/-- C2: multi-order payment conservatism in `run_square_sync`.  For a
payment whose description yields more than one order id, every referenced
existing unpaid order is marked `payment_received = TRUE` with the
timestamp stamped, but its `payment_amount` is written NULL and its
`shipping_cost` is left unchanged (the `COALESCE` keeps the old value);
with exactly one extracted id the `payment_amount` is set to the payment
amount. -/
theorem square_multi_order_c2 (orders : List Order) (events : List OrderEvent)
    (res : SquareResults) (p : RawPayment) (now : Nat)
    (hN : (orders.map Order.order_id).Nodup) :
    ∀ o ∈ orders, o.order_id ∈ extract_order_ids p.description →
      o.payment_received = false →
      (1 < (extract_order_ids p.description).length →
        ∃ o2 ∈ (processPayment noexc now ⟨orders, events, res⟩ p).orders,
          o2.order_id = o.order_id ∧ o2.payment_received = true ∧
          o2.payment_received_at = some now ∧ o2.payment_amount = none ∧
          o2.shipping_cost = o.shipping_cost) ∧
      ((extract_order_ids p.description).length = 1 →
        ∃ o2 ∈ (processPayment noexc now ⟨orders, events, res⟩ p).orders,
          o2.order_id = o.order_id ∧ o2.payment_received = true ∧
          o2.payment_received_at = some now ∧ o2.payment_amount = some p.amount) := by
  intro o ho hmem hrec
  have hmap := processPayment_orders_noexc ⟨orders, events, res⟩ p now hN
  have hcond : o.order_id ∈ extract_order_ids p.description ∧ o.payment_received = false :=
    ⟨hmem, hrec⟩
  have ho2 : squareRowUpdate (extract_order_ids p.description).length p.amount now o
      ∈ (processPayment noexc now ⟨orders, events, res⟩ p).orders := by
    rw [hmap]
    exact List.mem_map.mpr ⟨o, ho, if_pos hcond⟩
  constructor
  · intro hmulti
    have hne1 : (extract_order_ids p.description).length ≠ 1 := by omega
    refine ⟨squareRowUpdate (extract_order_ids p.description).length p.amount now o, ho2,
      rfl, rfl, rfl, ?_, ?_⟩
    · show (if (extract_order_ids p.description).length = 1 then some p.amount else none) = none
      rw [if_neg hne1]
    · show coalesce (squareShipping (extract_order_ids p.description).length p.amount o)
        o.shipping_cost = o.shipping_cost
      rw [squareShipping, if_neg (fun hc => hne1 hc.1)]
      rfl
  · intro hone
    refine ⟨squareRowUpdate (extract_order_ids p.description).length p.amount now o, ho2,
      rfl, rfl, rfl, ?_⟩
    show (if (extract_order_ids p.description).length = 1 then some p.amount else none)
      = some p.amount
    rw [if_pos hone]

/-- Orders 5317 (shipping already 25) and 5319, referenced by one Square
payment. -/
def c2aOrder : Order := { order_id := "5317", order_total := some 300, shipping_cost := some 25 }

def c2bOrder : Order := { order_id := "5319", order_total := some 200 }

def c2Payment : RawPayment :=
  { payment_id := "sq_1", amount := 550, description := "5317 & 5319 G&B CFC" }

/-- C2 witnessed: processing the multi-order payment
`"5317 & 5319 G&B CFC"` marks order 5317 paid at tick 7 with NULL
`payment_amount` and its `shipping_cost` untouched. -/
theorem square_multi_order_c2_witness :
    ∃ o2 ∈ (processPayment noexc 7 ⟨[c2aOrder, c2bOrder], [], {}⟩ c2Payment).orders,
      o2.order_id = c2aOrder.order_id ∧ o2.payment_received = true ∧
      o2.payment_received_at = some 7 ∧ o2.payment_amount = none ∧
      o2.shipping_cost = c2aOrder.shipping_cost :=
  (square_multi_order_c2 [c2aOrder, c2bOrder] [] {} c2Payment 7 (by decide) c2aOrder
    (by decide) (by decide) rfl).1 (by decide)

/-- C10: `run_square_sync` never records a negative shipping cost.  For
every order in the table, after processing a payment the order's
`shipping_cost` is freshly written only when the payment references
exactly that (unpaid) order as its single extracted id, the declared total
is positive, and the amount is at least the total — in which case the
written value is `amount - total` and is non-negative; in every other case
the stored `shipping_cost` is unchanged. -/
theorem square_shipping_nonnegative_c10 (orders : List Order) (events : List OrderEvent)
    (res : SquareResults) (p : RawPayment) (now : Nat)
    (hN : (orders.map Order.order_id).Nodup) :
    ∀ o ∈ orders,
      ∃ o2 ∈ (processPayment noexc now ⟨orders, events, res⟩ p).orders,
        o2.order_id = o.order_id ∧
        o2.shipping_cost =
          (if o.order_id ∈ extract_order_ids p.description ∧ o.payment_received = false ∧
              (extract_order_ids p.description).length = 1 ∧
              0 < o.order_total.getD 0 ∧ o.order_total.getD 0 ≤ p.amount
           then some (p.amount - o.order_total.getD 0) else o.shipping_cost) ∧
        (o.order_total.getD 0 ≤ p.amount → 0 ≤ p.amount - o.order_total.getD 0) := by
  intro o ho
  have hmap := processPayment_orders_noexc ⟨orders, events, res⟩ p now hN
  by_cases hc : o.order_id ∈ extract_order_ids p.description ∧ o.payment_received = false
  · have ho2 : squareRowUpdate (extract_order_ids p.description).length p.amount now o
        ∈ (processPayment noexc now ⟨orders, events, res⟩ p).orders := by
      rw [hmap]
      exact List.mem_map.mpr ⟨o, ho, if_pos hc⟩
    refine ⟨squareRowUpdate (extract_order_ids p.description).length p.amount now o, ho2,
      rfl, ?_, fun h => by linarith⟩
    show coalesce (squareShipping (extract_order_ids p.description).length p.amount o)
        o.shipping_cost = _
    rw [squareShipping]
    by_cases h1 : (extract_order_ids p.description).length = 1 ∧ 0 < o.order_total.getD 0
    · rw [if_pos h1]
      by_cases h2 : p.amount - o.order_total.getD 0 < 0
      · rw [if_pos h2]
        rw [if_neg (by
          rintro ⟨_, _, _, _, hle⟩
          linarith)]
        rfl
      · rw [if_neg h2]
        rw [if_pos ⟨hc.1, hc.2, h1.1, h1.2, by linarith⟩]
        rfl
    · rw [if_neg h1]
      rw [if_neg (by rintro ⟨_, _, ha, hb, _⟩; exact h1 ⟨ha, hb⟩)]
      rfl
  · have ho2 : o ∈ (processPayment noexc now ⟨orders, events, res⟩ p).orders := by
      rw [hmap]
      exact List.mem_map.mpr ⟨o, ho, if_neg hc⟩
    refine ⟨o, ho2, rfl, ?_, fun h => by linarith⟩
    rw [if_neg (fun h2 => hc ⟨h2.1, h2.2.1⟩)]

/-- Order 5184 with total 500, paid by a single-order payment of 550. -/
def c10Order : Order := { order_id := "5184", order_total := some 500 }

def c10Payment : RawPayment :=
  { payment_id := "sq_2", amount := 550, description := "5184 Broke and Poor CFC" }

/-- C10 witnessed at the single-order payment `"5184 Broke and Poor CFC"`. -/
theorem square_shipping_nonnegative_c10_witness :
    ∃ o2 ∈ (processPayment noexc 7 ⟨[c10Order], [], {}⟩ c10Payment).orders,
      o2.order_id = c10Order.order_id ∧
      o2.shipping_cost =
        (if c10Order.order_id ∈ extract_order_ids c10Payment.description ∧
            c10Order.payment_received = false ∧
            (extract_order_ids c10Payment.description).length = 1 ∧
            0 < c10Order.order_total.getD 0 ∧
            c10Order.order_total.getD 0 ≤ c10Payment.amount
         then some (c10Payment.amount - c10Order.order_total.getD 0)
         else c10Order.shipping_cost) ∧
      (c10Order.order_total.getD 0 ≤ c10Payment.amount →
        0 ≤ c10Payment.amount - c10Order.order_total.getD 0) :=
  square_shipping_nonnegative_c10 [c10Order] [] {} c10Payment 7 (by decide) c10Order
    (by decide)

/-!
## C4 machinery: the flag/timestamp coupling invariant
-/

/-- Each checkpoint timestamp is non-null exactly when its paired flag is
true. -/
def coupled (o : Order) : Prop :=
  o.payment_link_sent_at.isSome = o.payment_link_sent ∧
  o.payment_received_at.isSome = o.payment_received ∧
  o.sent_to_warehouse_at.isSome = o.sent_to_warehouse ∧
  o.warehouse_confirmed_at.isSome = o.warehouse_confirmed ∧
  o.bol_sent_at.isSome = o.bol_sent ∧
  o.completed_at.isSome = o.is_complete

theorem coupled_iff (o : Order) :
    coupled o ↔ ∀ cp : Checkpoint, (checkpointTs cp o).isSome = checkpointFlag cp o := by
  constructor
  · intro h cp
    cases cp <;>
      first
        | exact h.1
        | exact h.2.1
        | exact h.2.2.1
        | exact h.2.2.2.1
        | exact h.2.2.2.2.1
        | exact h.2.2.2.2.2
  · intro h
    exact ⟨h .payment_link_sent, h .payment_received, h .sent_to_warehouse,
      h .warehouse_confirmed, h .bol_sent, h .is_complete⟩

theorem coupled_parseEmailUpdateRow (p : ParsedFields) (w1 w2 : Option String) (now : Nat)
    (o : Order) (h : coupled o) : coupled (parseEmailUpdateRow p w1 w2 now o) := h

theorem coupled_parseEmailInsertRow (oid : String) (p : ParsedFields)
    (w1 w2 : Option String) (d : Nat) (tr : Bool) :
    coupled (parseEmailInsertRow oid p w1 w2 d tr) := by
  exact ⟨rfl, rfl, rfl, rfl, rfl, rfl⟩

theorem coupled_b2bConflictUpdate (f : B2BFields) (now : Nat) (o : Order)
    (h : coupled o) : coupled (b2bConflictUpdate f now o) := h

theorem coupled_setFlagTs (cp : Checkpoint) (now : Nat) (o : Order) (h : coupled o) :
    coupled (setFlagTs cp now o) := by
  obtain ⟨h1, h2, h3, h4, h5, h6⟩ := h
  cases cp <;> exact ⟨by first | rfl | exact h1, by first | rfl | exact h2,
    by first | rfl | exact h3, by first | rfl | exact h4,
    by first | rfl | exact h5, by first | rfl | exact h6⟩

theorem coupled_gmailMarkPaid (amount : ℚ) (now : Nat) (o : Order) (h : coupled o) :
    coupled (gmailMarkPaid amount now o) :=
  ⟨h.1, rfl, h.2.2.1, h.2.2.2.1, h.2.2.2.2.1, h.2.2.2.2.2⟩

theorem coupled_squareApplyPaid (n : Nat) (a : ℚ) (s : Option ℚ) (t : Nat) (o : Order)
    (h : coupled o) : coupled (squareApplyPaid n a s t o) :=
  ⟨h.1, rfl, h.2.2.1, h.2.2.2.1, h.2.2.2.2.1, h.2.2.2.2.2⟩

theorem coupled_updateOrders {oid : String} {f : Order → Order} {l : List Order}
    (hl : ∀ o ∈ l, coupled o) (hf : ∀ o, coupled o → coupled (f o)) :
    ∀ o ∈ updateOrders oid f l, coupled o := by
  intro o ho
  rcases mem_updateOrders ho with ⟨r, hr, _, rfl⟩ | ⟨h1, _⟩
  · exact hf r (hl r hr)
  · exact hl o h1

theorem coupled_append {l1 l2 : List Order} (h1 : ∀ o ∈ l1, coupled o)
    (h2 : ∀ o ∈ l2, coupled o) : ∀ o ∈ l1 ++ l2, coupled o := by
  intro o ho
  rcases List.mem_append.mp ho with h | h
  · exact h1 o h
  · exact h2 o h

theorem coupled_parse_email (orders : List Order) (events : List OrderEvent) (oid : String)
    (p : ParsedFields) (w1 w2 : Option String) (d : Nat) (tr : Bool) (now : Nat)
    (hl : ∀ o ∈ orders, coupled o) :
    ∀ o ∈ (parse_email orders events oid p w1 w2 d tr now).2.1, coupled o := by
  by_cases h : (findOrder orders oid).isSome
  · simp only [parse_email, if_pos h]
    exact coupled_updateOrders hl (coupled_parseEmailUpdateRow p w1 w2 now)
  · simp only [parse_email, if_neg h]
    refine coupled_append hl ?_
    intro o ho
    rw [List.mem_singleton.mp ho]
    exact coupled_parseEmailInsertRow oid p w1 w2 d tr

theorem coupled_b2b_sync (orders : List Order) (events : List OrderEvent) (f : B2BFields)
    (now : Nat) (hl : ∀ o ∈ orders, coupled o) :
    ∀ o ∈ (sync_order_from_b2bwave orders events f now).1, coupled o := by
  by_cases h : (findOrder orders f.order_id).isSome
  · simp only [sync_order_from_b2bwave, if_pos h]
    exact coupled_updateOrders hl (coupled_b2bConflictUpdate f now)
  · simp only [sync_order_from_b2bwave, if_neg h]
    refine coupled_append hl ?_
    intro o ho
    rw [List.mem_singleton.mp ho]
    exact ⟨rfl, rfl, rfl, rfl, rfl, rfl⟩

theorem coupled_update_order (orders : List Order) (oid : String) (u : OrderPatch)
    (now : Nat) (hl : ∀ o ∈ orders, coupled o) :
    ∀ o ∈ update_order orders oid u now, coupled o := by
  refine coupled_updateOrders hl ?_
  intro o h
  exact h

theorem coupled_update_checkpoint (orders : List Order) (events : List OrderEvent)
    (oid : String) (cp : Checkpoint) (pa : Option ℚ) (src : String) (now : Nat)
    (res : List Order × List OrderEvent)
    (hok : update_checkpoint orders events oid cp pa src now = .ok res)
    (hl : ∀ o ∈ orders, coupled o) : ∀ o ∈ res.1, coupled o := by
  simp only [update_checkpoint] at hok
  split at hok
  · simp at hok
  · rw [Except.ok.injEq] at hok
    subst hok
    refine coupled_updateOrders hl ?_
    intro o h
    exact coupled_setFlagTs cp now _ h

theorem coupled_detect_payment_link (orders : List Order) (events : List OrderEvent)
    (oid : String) (body : String) (now : Nat) (hl : ∀ o ∈ orders, coupled o) :
    ∀ o ∈ (detect_payment_link orders events oid body now).2.1, coupled o := by
  simp only [detect_payment_link]
  split
  · split
    · intro o ho
      obtain ⟨r, hr, heq⟩ := List.mem_map.mp ho
      split at heq
      · rw [← heq]
        exact ⟨rfl, (hl r hr).2.1, (hl r hr).2.2.1, (hl r hr).2.2.2.1,
          (hl r hr).2.2.2.2.1, (hl r hr).2.2.2.2.2⟩
      · rw [← heq]
        exact hl r hr
    · exact hl
  · exact hl

theorem coupled_dpr_match (orders : List Order) (events : List OrderEvent) (amount : ℚ)
    (cn : Option String) (now : Nat) (hl : ∀ o ∈ orders, coupled o) :
    ∀ o ∈ (detectPaymentReceivedMatch orders events amount cn now).2.1, coupled o := by
  simp only [detectPaymentReceivedMatch]
  cases dprLoop amount cn (dprCandidates orders) none with
  | some m =>
    refine coupled_updateOrders hl ?_
    intro o h
    exact ⟨h.1, rfl, h.2.2.1, h.2.2.2.1, h.2.2.2.2.1, h.2.2.2.2.2⟩
  | none => exact hl

theorem coupled_match_payment (orders : List Order) (events : List OrderEvent) (amount : ℚ)
    (cn : String) (now : Nat) (hl : ∀ o ∈ orders, coupled o) :
    ∀ o ∈ (match_payment_to_order orders events amount cn now).2.1, coupled o := by
  simp only [match_payment_to_order]
  cases (gmailCandidates orders cn).find? (gmailAmountRule amount) with
  | some m => exact coupled_updateOrders hl (coupled_gmailMarkPaid amount now)
  | none => exact hl

theorem coupled_gmail_payment_link_sent (orders : List Order) (events : List OrderEvent)
    (oid : String) (now : Nat) (hl : ∀ o ∈ orders, coupled o) :
    ∀ o ∈ (update_order_payment_link_sent orders events oid now).2.1, coupled o := by
  cases hf : findOrder orders oid with
  | none =>
    have heq : update_order_payment_link_sent orders events oid now
        = (false, orders, events) := by
      simp [update_order_payment_link_sent, hf]
    rw [heq]
    exact hl
  | some row =>
    by_cases hm : row.payment_link_sent = true
    · have heq : update_order_payment_link_sent orders events oid now
          = (false, orders, events) := by
        simp [update_order_payment_link_sent, hf, hm]
      rw [heq]
      exact hl
    · have hmf : row.payment_link_sent = false := Bool.eq_false_iff.mpr hm
      have heq : (update_order_payment_link_sent orders events oid now).2.1
          = updateOrders oid (fun o =>
              { o with payment_link_sent := true, payment_link_sent_at := some now,
                       updated_at := now }) orders := by
        simp [update_order_payment_link_sent, hf, hmf]
      rw [heq]
      refine coupled_updateOrders hl ?_
      intro o h
      exact ⟨rfl, h.2.1, h.2.2.1, h.2.2.2.1, h.2.2.2.2.1, h.2.2.2.2.2⟩

theorem coupled_rl_quote (orders : List Order) (events : List OrderEvent)
    (oid quote_no : String) (now : Nat) (hl : ∀ o ∈ orders, coupled o) :
    ∀ o ∈ (update_order_rl_quote orders events oid quote_no now).1, coupled o := by
  refine coupled_updateOrders hl ?_
  intro o h
  exact h

theorem coupled_tracking (orders : List Order) (events : List OrderEvent)
    (oid tracking_no carrier : String) (now : Nat) (hl : ∀ o ∈ orders, coupled o) :
    ∀ o ∈ (update_order_tracking orders events oid tracking_no carrier now).1, coupled o := by
  refine coupled_updateOrders hl ?_
  intro o h
  exact h

theorem coupled_detect_rl_quote (orders : List Order) (events : List OrderEvent)
    (oid body : String) (now : Nat) (hl : ∀ o ∈ orders, coupled o) :
    ∀ o ∈ (detect_rl_quote orders events oid body now).2.1, coupled o := by
  simp only [detect_rl_quote]
  cases reSearch1 rlQuoteRe body with
  | some q =>
    refine coupled_updateOrders hl ?_
    intro o h
    exact h
  | none => exact hl

theorem coupled_detect_pro_number (orders : List Order) (events : List OrderEvent)
    (oid body : String) (now : Nat) (hl : ∀ o ∈ orders, coupled o) :
    ∀ o ∈ (detect_pro_number orders events oid body now).2.1, coupled o := by
  simp only [detect_pro_number]
  cases reSearch1 proRe body with
  | some g =>
    refine coupled_updateOrders hl ?_
    intro o h
    exact h
  | none => exact hl

theorem coupled_processOneId (p : RawPayment) (nIds : Nat)
    (exc : String → String → Option String) (now : Nat) (st : SqState) (oid : String)
    (hl : ∀ o ∈ st.orders, coupled o) :
    ∀ o ∈ (processOneId p nIds exc now st oid).orders, coupled o := by
  intro o ho
  simp only [processOneId] at ho
  split at ho
  · exact hl o ho
  · split at ho
    · exact hl o ho
    · split at ho
      · exact hl o ho
      · exact coupled_updateOrders hl (coupled_squareApplyPaid _ _ _ _) o ho

theorem coupled_squareFold : ∀ (ids : List String) (p : RawPayment) (nIds : Nat)
    (exc : String → String → Option String) (now : Nat) (st : SqState),
    (∀ o ∈ st.orders, coupled o) →
    ∀ o ∈ (ids.foldl (processOneId p nIds exc now) st).orders, coupled o
  | [], _, _, _, _, _ => fun hl => hl
  | x :: xs, p, nIds, exc, now, st => by
    intro hl
    rw [List.foldl_cons]
    exact coupled_squareFold xs p nIds exc now _ (coupled_processOneId p nIds exc now st x hl)

theorem coupled_processPayment (exc : String → String → Option String) (now : Nat)
    (st : SqState) (p : RawPayment) (hl : ∀ o ∈ st.orders, coupled o) :
    ∀ o ∈ (processPayment exc now st p).orders, coupled o := by
  intro o ho
  simp only [processPayment] at ho
  split at ho
  · exact hl o ho
  · exact coupled_squareFold _ p _ exc now st hl o ho

theorem coupled_paymentsFold : ∀ (ps : List RawPayment)
    (exc : String → String → Option String) (now : Nat) (st : SqState),
    (∀ o ∈ st.orders, coupled o) →
    ∀ o ∈ (ps.foldl (processPayment exc now) st).orders, coupled o
  | [], _, _, _ => fun hl => hl
  | p :: ps, exc, now, st => by
    intro hl
    rw [List.foldl_cons]
    exact coupled_paymentsFold ps exc now _ (coupled_processPayment exc now st p hl)

theorem coupled_run_square_sync (configured : Bool)
    (fetched : Except String (List RawPayment)) (orders : List Order)
    (events : List OrderEvent) (exc : String → String → Option String) (now : Nat)
    (hl : ∀ o ∈ orders, coupled o) :
    ∀ o ∈ (run_square_sync configured fetched orders events exc now).orders, coupled o := by
  intro o ho
  simp only [run_square_sync] at ho
  split at ho
  · exact hl o ho
  · split at ho
    · exact hl o ho
    · exact coupled_paymentsFold _ exc now _ hl o ho

theorem coupled_gmailHandlePaymentLink (now : Nat) (st : GmState) (m : GmailMsg)
    (hl : ∀ o ∈ st.orders, coupled o) :
    ∀ o ∈ (gmailHandlePaymentLink now st m).orders, coupled o := by
  intro o ho
  simp only [gmailHandlePaymentLink] at ho
  split at ho
  · exact hl o ho
  · split at ho
    · exact hl o ho
    · split at ho
      · exact hl o ho
      · split at ho
        · exact hl o ho
        · split at ho
          · exact hl o ho
          · exact coupled_gmail_payment_link_sent st.orders st.events _ now hl o ho

theorem coupled_gmailHandlePaymentReceived (now : Nat) (st : GmState) (m : GmailMsg)
    (hl : ∀ o ∈ st.orders, coupled o) :
    ∀ o ∈ (gmailHandlePaymentReceived now st m).orders, coupled o := by
  intro o ho
  simp only [gmailHandlePaymentReceived] at ho
  split at ho
  · exact hl o ho
  · split at ho
    · exact hl o ho
    · split at ho
      · split at ho
        · exact hl o ho
        · split at ho
          · exact coupled_match_payment st.orders st.events _ _ now hl o ho
          · exact coupled_match_payment st.orders st.events _ _ now hl o ho
      · exact hl o ho

theorem coupled_gmailHandleRlQuote (now : Nat) (st : GmState) (m : GmailMsg)
    (hl : ∀ o ∈ st.orders, coupled o) :
    ∀ o ∈ (gmailHandleRlQuote now st m).orders, coupled o := by
  intro o ho
  simp only [gmailHandleRlQuote] at ho
  split at ho
  · exact hl o ho
  · split at ho
    · exact hl o ho
    · split at ho
      · exact hl o ho
      · split at ho
        · exact hl o ho
        · exact coupled_rl_quote st.orders st.events _ _ now hl o ho

theorem coupled_gmailHandleTrackingUps (now : Nat) (st : GmState) (m : GmailMsg)
    (text : String) (hl : ∀ o ∈ st.orders, coupled o) :
    ∀ o ∈ (gmailHandleTrackingUps now st m text).orders, coupled o := by
  intro o ho
  simp only [gmailHandleTrackingUps] at ho
  split at ho
  · exact hl o ho
  · split at ho
    · exact hl o ho
    · split at ho
      · exact hl o ho
      · exact coupled_tracking st.orders st.events _ _ _ now hl o ho

theorem coupled_gmailHandleTracking (now : Nat) (st : GmState) (m : GmailMsg)
    (hl : ∀ o ∈ st.orders, coupled o) :
    ∀ o ∈ (gmailHandleTracking now st m).orders, coupled o := by
  intro o ho
  simp only [gmailHandleTracking] at ho
  split at ho
  · exact hl o ho
  · split at ho
    · split at ho
      · exact coupled_gmailHandleTrackingUps now st m _ hl o ho
      · split at ho
        · exact hl o ho
        · exact coupled_tracking st.orders st.events _ _ _ now hl o ho
    · exact coupled_gmailHandleTrackingUps now st m _ hl o ho

theorem coupled_gmailFold (handler : GmState → GmailMsg → GmState)
    (hh : ∀ st m, (∀ o ∈ st.orders, coupled o) → ∀ o ∈ (handler st m).orders, coupled o) :
    ∀ (ms : List GmailMsg) (st : GmState), (∀ o ∈ st.orders, coupled o) →
    ∀ o ∈ (ms.foldl handler st).orders, coupled o
  | [], _ => fun hl => hl
  | m :: ms, st => by
    intro hl
    rw [List.foldl_cons]
    exact coupled_gmailFold handler hh ms _ (hh st m hl)

theorem coupled_runGmailSection (handler : GmState → GmailMsg → GmState)
    (hh : ∀ st m, (∀ o ∈ st.orders, coupled o) → ∀ o ∈ (handler st m).orders, coupled o)
    (errLabel : String) (msgs : Except String (List GmailMsg)) (st : GmState)
    (hl : ∀ o ∈ st.orders, coupled o) :
    ∀ o ∈ (runGmailSection handler errLabel msgs st).orders, coupled o := by
  intro o ho
  simp only [runGmailSection] at ho
  split at ho
  · exact hl o ho
  · exact coupled_gmailFold handler hh _ st hl o ho

theorem coupled_run_gmail_sync (configured : Bool)
    (sec1 sec2 sec3 sec4 : Except String (List GmailMsg)) (orders : List Order)
    (events : List OrderEvent) (now : Nat) (hl : ∀ o ∈ orders, coupled o) :
    ∀ o ∈ (run_gmail_sync configured sec1 sec2 sec3 sec4 orders events now).orders,
      coupled o := by
  intro o ho
  simp only [run_gmail_sync] at ho
  split at ho
  · exact hl o ho
  · refine coupled_runGmailSection _ (coupled_gmailHandleTracking now) _ sec4 _ ?_ o ho
    refine coupled_runGmailSection _ (coupled_gmailHandleRlQuote now) _ sec3 _ ?_
    refine coupled_runGmailSection _ (coupled_gmailHandlePaymentReceived now) _ sec2 _ ?_
    exact coupled_runGmailSection _ (coupled_gmailHandlePaymentLink now) _ sec1 _ hl

/-- The order-mutating operations of the system (HTTP endpoints, Gmail
sync, Square sync), for stating whole-system invariants.  Each constructor
carries the external inputs of the corresponding source function. -/
inductive SysOp where
  | emailParse (oid : String) (p : ParsedFields) (w1 w2 : Option String)
      (order_date : Nat) (trusted : Bool) (now : Nat)
  | b2bSync (f : B2BFields) (now : Nat)
  | patchOrder (oid : String) (u : OrderPatch) (now : Nat)
  | checkpoint (oid : String) (cp : Checkpoint) (pa : Option ℚ) (source : String) (now : Nat)
  | paymentLink (oid : String) (body : String) (now : Nat)
  | paymentReceived (subject : String) (now : Nat)
  | rlQuote (oid : String) (body : String) (now : Nat)
  | proNumber (oid : String) (body : String) (now : Nat)
  | gmailSync (configured : Bool) (s1 s2 s3 s4 : Except String (List GmailMsg)) (now : Nat)
  | squareSync (configured : Bool) (fetched : Except String (List RawPayment))
      (exc : String → String → Option String) (now : Nat)

/-- Apply one operation to the `(orders, order_events)` state (an endpoint
that raises, e.g. a 404, leaves the state unchanged). -/
def applyOp (st : List Order × List OrderEvent) (op : SysOp) :
    List Order × List OrderEvent :=
  match op with
  | .emailParse oid p w1 w2 d tr now => (parse_email st.1 st.2 oid p w1 w2 d tr now).2
  | .b2bSync f now => sync_order_from_b2bwave st.1 st.2 f now
  | .patchOrder oid u now => (update_order st.1 oid u now, st.2)
  | .checkpoint oid cp pa src now =>
    match update_checkpoint st.1 st.2 oid cp pa src now with
    | .ok r => r
    | .error _ => st
  | .paymentLink oid body now => (detect_payment_link st.1 st.2 oid body now).2
  | .paymentReceived subject now =>
    match detect_payment_received st.1 st.2 subject now with
    | .ok r => r.2
    | .error _ => st
  | .rlQuote oid body now => (detect_rl_quote st.1 st.2 oid body now).2
  | .proNumber oid body now => (detect_pro_number st.1 st.2 oid body now).2
  | .gmailSync c s1 s2 s3 s4 now =>
    ((run_gmail_sync c s1 s2 s3 s4 st.1 st.2 now).orders,
     (run_gmail_sync c s1 s2 s3 s4 st.1 st.2 now).events)
  | .squareSync c f exc now =>
    ((run_square_sync c f st.1 st.2 exc now).orders,
     (run_square_sync c f st.1 st.2 exc now).events)

/-- Apply a sequence of operations, oldest first. -/
def applyOps (ops : List SysOp) (st : List Order × List OrderEvent) :
    List Order × List OrderEvent :=
  ops.foldl applyOp st

theorem coupled_applyOp (st : List Order × List OrderEvent) (op : SysOp)
    (hl : ∀ o ∈ st.1, coupled o) : ∀ o ∈ (applyOp st op).1, coupled o := by
  cases op with
  | emailParse oid p w1 w2 d tr now => exact coupled_parse_email st.1 st.2 oid p w1 w2 d tr now hl
  | b2bSync f now => exact coupled_b2b_sync st.1 st.2 f now hl
  | patchOrder oid u now => exact coupled_update_order st.1 oid u now hl
  | checkpoint oid cp pa src now =>
    intro o ho
    simp only [applyOp] at ho
    split at ho
    · exact coupled_update_checkpoint st.1 st.2 oid cp pa src now _ (by assumption) hl o ho
    · exact hl o ho
  | paymentLink oid body now => exact coupled_detect_payment_link st.1 st.2 oid body now hl
  | paymentReceived subject now =>
    intro o ho
    simp only [applyOp] at ho
    cases hdet : detect_payment_received st.1 st.2 subject now with
    | error e =>
      rw [hdet] at ho
      exact hl o ho
    | ok r =>
      rw [hdet] at ho
      simp only [detect_payment_received] at hdet
      split at hdet
      · rw [Except.ok.injEq] at hdet
        subst hdet
        exact hl o ho
      · split at hdet
        · simp at hdet
        · rw [Except.ok.injEq] at hdet
          subst hdet
          exact coupled_dpr_match st.1 st.2 _ _ now hl o ho
  | rlQuote oid body now => exact coupled_detect_rl_quote st.1 st.2 oid body now hl
  | proNumber oid body now => exact coupled_detect_pro_number st.1 st.2 oid body now hl
  | gmailSync c s1 s2 s3 s4 now => exact coupled_run_gmail_sync c s1 s2 s3 s4 st.1 st.2 now hl
  | squareSync c f exc now => exact coupled_run_square_sync c f st.1 st.2 exc now hl

theorem coupled_applyOps : ∀ (ops : List SysOp) (st : List Order × List OrderEvent),
    (∀ o ∈ st.1, coupled o) → ∀ o ∈ (applyOps ops st).1, coupled o
  | [], _ => fun hl => hl
  | op :: ops, st => by
    intro hl
    simp only [applyOps, List.foldl_cons]
    exact coupled_applyOps ops _ (coupled_applyOp st op hl)

/-- C4: the flag/timestamp coupling invariant.  Starting from the empty
orders table, after any sequence of the system's order operations
(creation and update via `/parse-email`, B2BWave sync upsert, field
patches, checkpoint updates, payment-link/payment-received/quote/tracking
detection, full Gmail and Square sync runs), every order satisfies: each
of the six checkpoint timestamps is non-null exactly when its paired
boolean flag is true. -/
theorem checkpoint_coupling_c4 (ops : List SysOp) :
    ∀ o ∈ (applyOps ops ([], [])).1, ∀ cp : Checkpoint,
      (checkpointTs cp o).isSome = checkpointFlag cp o := by
  intro o ho
  exact (coupled_iff o).mp
    (coupled_applyOps ops ([], []) (fun o ho => absurd ho (List.not_mem_nil o)) o ho)

/-- C4 witnessed on a concrete history: create order 5261 by email parse,
mark `payment_received` through the checkpoint endpoint at tick 2, then
run a Square payment against order 5261 — the resulting order still
couples every timestamp with its flag. -/
theorem checkpoint_coupling_c4_witness :
    (checkpointTs Checkpoint.payment_received
        (setFlagTs Checkpoint.payment_received 2
          (parseEmailInsertRow "5261" {} none none 0 false))).isSome
      = checkpointFlag Checkpoint.payment_received
          (setFlagTs Checkpoint.payment_received 2
            (parseEmailInsertRow "5261" {} none none 0 false))
    ∧ (checkpointTs Checkpoint.payment_link_sent
        (setFlagTs Checkpoint.payment_received 2
          (parseEmailInsertRow "5261" {} none none 0 false))).isSome
      = checkpointFlag Checkpoint.payment_link_sent
          (setFlagTs Checkpoint.payment_received 2
            (parseEmailInsertRow "5261" {} none none 0 false)) :=
  ⟨checkpoint_coupling_c4
    [SysOp.emailParse "5261" {} none none 0 false 1,
     SysOp.checkpoint "5261" Checkpoint.payment_received none "api" 2]
    (setFlagTs Checkpoint.payment_received 2 (parseEmailInsertRow "5261" {} none none 0 false))
    (by decide) Checkpoint.payment_received,
   checkpoint_coupling_c4
    [SysOp.emailParse "5261" {} none none 0 false 1,
     SysOp.checkpoint "5261" Checkpoint.payment_received none "api" 2]
    (setFlagTs Checkpoint.payment_received 2 (parseEmailInsertRow "5261" {} none none 0 false))
    (by decide) Checkpoint.payment_link_sent⟩

/-!
## C8 machinery: per-item error accounting
-/

/-- The error entries one payment contributes to a `run_square_sync`
batch, computed against the initial orders table: one entry per extracted
id whose per-order transaction raises, and one `order_not_found` entry per
id with no matching order. -/
def sqErrContrib (orders : List Order) (exc : String → String → Option String)
    (p : RawPayment) : List SqError :=
  (extract_order_ids p.description).flatMap (fun oid =>
    match exc p.payment_id oid with
    | some e => [⟨oid, e⟩]
    | none => if (findOrder orders oid).isSome then [] else [⟨oid, "order_not_found"⟩])

/-- The unmatched entry one payment contributes (exactly when its
description yields no order id). -/
def sqUnmContrib (p : RawPayment) : List SqUnmatched :=
  if extract_order_ids p.description = [] then
    [⟨p.payment_id, p.amount, p.description, "no_order_ids_in_description"⟩]
  else []

theorem findOrder_isSome_any (l : List Order) (oid : String) :
    (findOrder l oid).isSome = l.any (fun o => o.order_id = oid) := by
  induction l with
  | nil => rfl
  | cons x xs ih =>
    by_cases h : x.order_id = oid
    · simp [findOrder, List.find?, h]
    · simp only [findOrder, List.find?] at *
      rw [decide_eq_false h]
      simp only [List.any_cons, decide_eq_false h, Bool.false_or]
      exact ih

theorem any_order_id_congr {l1 l2 : List Order}
    (h : l1.map Order.order_id = l2.map Order.order_id) (oid : String) :
    l1.any (fun o => o.order_id = oid) = l2.any (fun o => o.order_id = oid) := by
  have h1 : ∀ l : List Order, l.any (fun o => o.order_id = oid)
      = (l.map Order.order_id).any (fun i => i = oid) := by
    intro l
    induction l with
    | nil => rfl
    | cons x xs ih => simp only [List.any_cons, List.map_cons, ih]
  rw [h1, h1, h]

theorem processOneId_errors (p : RawPayment) (nIds : Nat)
    (exc : String → String → Option String) (now : Nat) (st : SqState) (oid : String) :
    (processOneId p nIds exc now st oid).res.errors
      = st.res.errors ++ (match exc p.payment_id oid with
          | some e => [⟨oid, e⟩]
          | none => if (findOrder st.orders oid).isSome then []
                    else [⟨oid, "order_not_found"⟩]) := by
  simp only [processOneId]
  cases exc p.payment_id oid with
  | some e => rfl
  | none =>
    cases hf : findOrder st.orders oid with
    | none => simp [hf]
    | some row =>
      cases hrec : row.payment_received <;> simp [hf, hrec]

theorem processOneId_unmatched (p : RawPayment) (nIds : Nat)
    (exc : String → String → Option String) (now : Nat) (st : SqState) (oid : String) :
    (processOneId p nIds exc now st oid).res.payments_unmatched
      = st.res.payments_unmatched := by
  simp only [processOneId]
  cases exc p.payment_id oid with
  | some e => rfl
  | none =>
    cases hf : findOrder st.orders oid with
    | none => rfl
    | some row => cases hrec : row.payment_received <;> simp [hrec]

theorem processOneId_found_status (p : RawPayment) (nIds : Nat)
    (exc : String → String → Option String) (now : Nat) (st : SqState) (oid : String) :
    (processOneId p nIds exc now st oid).res.payments_found = st.res.payments_found ∧
    (processOneId p nIds exc now st oid).res.status = st.res.status := by
  simp only [processOneId]
  cases exc p.payment_id oid with
  | some e => exact ⟨rfl, rfl⟩
  | none =>
    cases hf : findOrder st.orders oid with
    | none => exact ⟨rfl, rfl⟩
    | some row => cases hrec : row.payment_received <;> simp [hrec]

theorem squareFold_errors : ∀ (ids : List String) (p : RawPayment) (nIds : Nat)
    (exc : String → String → Option String) (now : Nat) (st : SqState),
    (ids.foldl (processOneId p nIds exc now) st).res.errors
      = st.res.errors ++ ids.flatMap (fun oid =>
          match exc p.payment_id oid with
          | some e => [⟨oid, e⟩]
          | none => if (findOrder st.orders oid).isSome then []
                    else [⟨oid, "order_not_found"⟩])
  | [], p, nIds, exc, now, st => by simp
  | x :: xs, p, nIds, exc, now, st => by
    rw [List.foldl_cons, squareFold_errors xs p nIds exc now _, processOneId_errors]
    rw [List.flatMap_cons, List.append_assoc]
    congr 2
    refine List.flatMap_congr ?_
    intro oid _
    have hmap := processOneId_map_order_id p nIds exc now st x
    rw [findOrder_isSome_any, findOrder_isSome_any, any_order_id_congr hmap]

theorem squareFold_unmatched : ∀ (ids : List String) (p : RawPayment) (nIds : Nat)
    (exc : String → String → Option String) (now : Nat) (st : SqState),
    (ids.foldl (processOneId p nIds exc now) st).res.payments_unmatched
      = st.res.payments_unmatched
  | [], _, _, _, _, _ => rfl
  | x :: xs, p, nIds, exc, now, st => by
    rw [List.foldl_cons, squareFold_unmatched xs p nIds exc now _, processOneId_unmatched]

theorem squareFold_found_status : ∀ (ids : List String) (p : RawPayment) (nIds : Nat)
    (exc : String → String → Option String) (now : Nat) (st : SqState),
    (ids.foldl (processOneId p nIds exc now) st).res.payments_found
      = st.res.payments_found ∧
    (ids.foldl (processOneId p nIds exc now) st).res.status = st.res.status
  | [], _, _, _, _, _ => ⟨rfl, rfl⟩
  | x :: xs, p, nIds, exc, now, st => by
    rw [List.foldl_cons]
    have h1 := squareFold_found_status xs p nIds exc now (processOneId p nIds exc now st x)
    have h2 := processOneId_found_status p nIds exc now st x
    exact ⟨h1.1.trans h2.1, h1.2.trans h2.2⟩

theorem squareFold_map_order_id : ∀ (ids : List String) (p : RawPayment) (nIds : Nat)
    (exc : String → String → Option String) (now : Nat) (st : SqState),
    (ids.foldl (processOneId p nIds exc now) st).orders.map Order.order_id
      = st.orders.map Order.order_id
  | [], _, _, _, _, _ => rfl
  | x :: xs, p, nIds, exc, now, st => by
    rw [List.foldl_cons, squareFold_map_order_id xs p nIds exc now _,
      processOneId_map_order_id]

theorem processPayment_errors (exc : String → String → Option String) (now : Nat)
    (st : SqState) (p : RawPayment) :
    (processPayment exc now st p).res.errors = st.res.errors ++ sqErrContrib st.orders exc p := by
  by_cases hids : extract_order_ids p.description = []
  · simp [processPayment, hids, sqErrContrib]
  · simp only [processPayment, if_neg hids]
    rw [squareFold_errors, sqErrContrib]

theorem processPayment_unmatched (exc : String → String → Option String) (now : Nat)
    (st : SqState) (p : RawPayment) :
    (processPayment exc now st p).res.payments_unmatched
      = st.res.payments_unmatched ++ sqUnmContrib p := by
  by_cases hids : extract_order_ids p.description = []
  · simp [processPayment, hids, sqUnmContrib]
  · simp only [processPayment, if_neg hids]
    rw [squareFold_unmatched, sqUnmContrib, if_neg hids, List.append_nil]

theorem processPayment_found_status (exc : String → String → Option String) (now : Nat)
    (st : SqState) (p : RawPayment) :
    (processPayment exc now st p).res.payments_found = st.res.payments_found ∧
    (processPayment exc now st p).res.status = st.res.status := by
  by_cases hids : extract_order_ids p.description = []
  · simp [processPayment, hids]
  · simp only [processPayment, if_neg hids]
    exact squareFold_found_status _ p _ exc now st

theorem processPayment_map_order_id (exc : String → String → Option String) (now : Nat)
    (st : SqState) (p : RawPayment) :
    (processPayment exc now st p).orders.map Order.order_id
      = st.orders.map Order.order_id := by
  by_cases hids : extract_order_ids p.description = []
  · simp [processPayment, hids]
  · simp only [processPayment, if_neg hids]
    exact squareFold_map_order_id _ p _ exc now st

theorem sqErrContrib_congr {l1 l2 : List Order}
    (h : l1.map Order.order_id = l2.map Order.order_id)
    (exc : String → String → Option String) (p : RawPayment) :
    sqErrContrib l1 exc p = sqErrContrib l2 exc p := by
  rw [sqErrContrib, sqErrContrib]
  refine List.flatMap_congr ?_
  intro oid _
  rw [findOrder_isSome_any, findOrder_isSome_any, any_order_id_congr h]

theorem paymentsFold_errors : ∀ (ps : List RawPayment)
    (exc : String → String → Option String) (now : Nat) (st : SqState),
    (ps.foldl (processPayment exc now) st).res.errors
      = st.res.errors ++ ps.flatMap (sqErrContrib st.orders exc)
  | [], _, _, _ => by simp
  | p :: ps, exc, now, st => by
    rw [List.foldl_cons, paymentsFold_errors ps exc now _, processPayment_errors]
    rw [List.flatMap_cons, List.append_assoc]
    congr 2
    refine List.flatMap_congr ?_
    intro q _
    exact sqErrContrib_congr (processPayment_map_order_id exc now st p) exc q

theorem paymentsFold_unmatched : ∀ (ps : List RawPayment)
    (exc : String → String → Option String) (now : Nat) (st : SqState),
    (ps.foldl (processPayment exc now) st).res.payments_unmatched
      = st.res.payments_unmatched ++ ps.flatMap sqUnmContrib
  | [], _, _, _ => by simp
  | p :: ps, exc, now, st => by
    rw [List.foldl_cons, paymentsFold_unmatched ps exc now _, processPayment_unmatched]
    rw [List.flatMap_cons, List.append_assoc]

theorem paymentsFold_found_status : ∀ (ps : List RawPayment)
    (exc : String → String → Option String) (now : Nat) (st : SqState),
    (ps.foldl (processPayment exc now) st).res.payments_found = st.res.payments_found ∧
    (ps.foldl (processPayment exc now) st).res.status = st.res.status
  | [], _, _, _ => ⟨rfl, rfl⟩
  | p :: ps, exc, now, st => by
    rw [List.foldl_cons]
    have h1 := paymentsFold_found_status ps exc now (processPayment exc now st p)
    have h2 := processPayment_found_status exc now st p
    exact ⟨h1.1.trans h2.1, h1.2.trans h2.2⟩

/-- The error entries one message contributes through section 1 of
`run_gmail_sync` (non-empty exactly when the message reaches its database
call and the call raises; every branch condition reads only the message). -/
def gmailErr1 (m : GmailMsg) : List String :=
  match m.content with
  | none => []
  | some email =>
    if !(containsCI email.sender "cabinetsforcontractors" || containsCI email.sender "william") then []
    else if !(containsSub (mkLower email.body) "square.link") then []
    else
      match extract_order_id (email.subject ++ " " ++ email.body) with
      | none => []
      | some _ =>
        match m.dbexc with
        | some e => ["Payment link error: " ++ e]
        | none => []

/-- The error entries one message contributes through section 2 of
`run_gmail_sync`. -/
def gmailErr2 (m : GmailMsg) : List String :=
  match m.content with
  | none => []
  | some email =>
    match extract_payment_amount email.subject with
    | .error e => ["Payment received error: " ++ e]
    | .ok amt =>
      let customer_name := extract_customer_name email.subject
      if (amt.getD 0 ≠ 0) && (customer_name.getD "" ≠ "") then
        match m.dbexc with
        | some e => ["Payment received error: " ++ e]
        | none => []
      else []

/-- The error entries one message contributes through section 3 of
`run_gmail_sync`. -/
def gmailErr3 (m : GmailMsg) : List String :=
  match m.content with
  | none => []
  | some email =>
    match reSearch1 rlQuoteRe email.body with
    | none => []
    | some _ =>
      match extract_order_id (email.subject ++ " " ++ email.body) with
      | none => []
      | some _ =>
        match m.dbexc with
        | some e => ["RL quote error: " ++ e]
        | none => []

/-- The error entries the UPS half of section 4 contributes. -/
def gmailErr4Ups (m : GmailMsg) (text : String) : List String :=
  match reSearch1 upsRe text with
  | none => []
  | some _ =>
    match extract_order_id text with
    | none => []
    | some _ =>
      match m.dbexc with
      | some e => ["Tracking error: " ++ e]
      | none => []

/-- The error entries one message contributes through section 4 of
`run_gmail_sync`. -/
def gmailErr4 (m : GmailMsg) : List String :=
  match m.content with
  | none => []
  | some email =>
    let text := email.subject ++ " " ++ email.body
    match reSearch1 proRe text with
    | some _ =>
      match extract_order_id text with
      | none => gmailErr4Ups m text
      | some _ =>
        match m.dbexc with
        | some e => ["Tracking error: " ++ e]
        | none => []
    | none => gmailErr4Ups m text

/-- The error list one whole section of `run_gmail_sync` produces: a failed
search is one labelled entry, otherwise the per-message contributions in
message order. -/
def gmailSectionErrors (errLabel : String) (f : GmailMsg → List String)
    (msgs : Except String (List GmailMsg)) : List String :=
  match msgs with
  | .error e => [errLabel ++ e]
  | .ok ms => ms.flatMap f

theorem gmailHandlePaymentLink_errors (now : Nat) (st : GmState) (m : GmailMsg) :
    (gmailHandlePaymentLink now st m).res.errors = st.res.errors ++ gmailErr1 m := by
  obtain ⟨c, d⟩ := m
  simp only [gmailHandlePaymentLink, gmailErr1]
  cases c with
  | none => simp
  | some email =>
    cases h1a : containsCI email.sender "cabinetsforcontractors" with
    | true =>
      cases h2 : containsSub (mkLower email.body) "square.link" with
      | false => simp [h1a, h2]
      | true =>
        cases h3 : extract_order_id (email.subject ++ " " ++ email.body) with
        | none => simp [h1a, h2, h3]
        | some oid => cases d <;> simp [h1a, h2, h3]
    | false =>
      cases h1b : containsCI email.sender "william" with
      | false => simp [h1a, h1b]
      | true =>
        cases h2 : containsSub (mkLower email.body) "square.link" with
        | false => simp [h1a, h1b, h2]
        | true =>
          cases h3 : extract_order_id (email.subject ++ " " ++ email.body) with
          | none => simp [h1a, h1b, h2, h3]
          | some oid => cases d <;> simp [h1a, h1b, h2, h3]

theorem gmailHandlePaymentReceived_errors (now : Nat) (st : GmState) (m : GmailMsg) :
    (gmailHandlePaymentReceived now st m).res.errors = st.res.errors ++ gmailErr2 m := by
  obtain ⟨c, d⟩ := m
  cases c with
  | none => simp [gmailHandlePaymentReceived, gmailErr2]
  | some email =>
    simp only [gmailHandlePaymentReceived, gmailErr2]
    repeat' split
    all_goals simp

theorem gmailHandleRlQuote_errors (now : Nat) (st : GmState) (m : GmailMsg) :
    (gmailHandleRlQuote now st m).res.errors = st.res.errors ++ gmailErr3 m := by
  obtain ⟨c, d⟩ := m
  cases c with
  | none => simp [gmailHandleRlQuote, gmailErr3]
  | some email =>
    simp only [gmailHandleRlQuote, gmailErr3]
    repeat' split
    all_goals simp

theorem gmailHandleTrackingUps_errors (now : Nat) (st : GmState) (m : GmailMsg)
    (text : String) :
    (gmailHandleTrackingUps now st m text).res.errors
      = st.res.errors ++ gmailErr4Ups m text := by
  simp only [gmailHandleTrackingUps, gmailErr4Ups]
  repeat' split
  all_goals simp

theorem gmailHandleTracking_errors (now : Nat) (st : GmState) (m : GmailMsg) :
    (gmailHandleTracking now st m).res.errors = st.res.errors ++ gmailErr4 m := by
  obtain ⟨c, d⟩ := m
  cases c with
  | none => simp [gmailHandleTracking, gmailErr4]
  | some email =>
    simp only [gmailHandleTracking, gmailErr4]
    repeat' split
    all_goals first
      | simp
      | exact gmailHandleTrackingUps_errors now st ⟨some email, d⟩ (email.subject ++ " " ++ email.body)

theorem gmailFold_errors (handler : GmState → GmailMsg → GmState)
    (f : GmailMsg → List String)
    (hstep : ∀ st m, (handler st m).res.errors = st.res.errors ++ f m) :
    ∀ (ms : List GmailMsg) (st : GmState),
    (ms.foldl handler st).res.errors = st.res.errors ++ ms.flatMap f
  | [], st => by simp
  | m :: ms, st => by
    rw [List.foldl_cons, gmailFold_errors handler f hstep ms _, hstep,
      List.flatMap_cons, List.append_assoc]

theorem runGmailSection_errors (handler : GmState → GmailMsg → GmState)
    (f : GmailMsg → List String)
    (hstep : ∀ st m, (handler st m).res.errors = st.res.errors ++ f m)
    (errLabel : String) (msgs : Except String (List GmailMsg)) (st : GmState) :
    (runGmailSection handler errLabel msgs st).res.errors
      = st.res.errors ++ gmailSectionErrors errLabel f msgs := by
  cases msgs with
  | error e => rfl
  | ok ms => exact gmailFold_errors handler f hstep ms st

/-- C8: batch partial-failure behavior. Missing credentials short-circuit a
whole run with a single disabled/not-configured result and untouched tables.
Otherwise a run never raises: a failed Square fetch yields one `status =
"error"` summary with the tables unchanged, and a successful fetch always
returns `status = "ok"` with the full payment count, the per-item error list
being exactly the concatenation of each payment's own contributions (a
per-order entry per raised transaction or missing order) and the unmatched
list exactly the payments with no extractable id — so a failure on one item
never stops the remaining items from contributing. Likewise the Gmail run's
error list is exactly the four sections' concatenated per-message
contributions, a failed section search adding one labelled entry while the
other sections still run. -/
theorem batch_partial_failure_c8 :
    (∀ (fetched : Except String (List RawPayment)) (orders : List Order)
        (events : List OrderEvent) (exc : String → String → Option String) (now : Nat),
      run_square_sync false fetched orders events exc now
        = ⟨orders, events,
           { status := "disabled",
             reason := some "Square API not configured. Set SQUARE_ACCESS_TOKEN and SQUARE_LOCATION_ID." }⟩)
    ∧ (∀ (e : String) (orders : List Order) (events : List OrderEvent)
        (exc : String → String → Option String) (now : Nat),
      run_square_sync true (.error e) orders events exc now
        = ⟨orders, events, { status := "error", error := some e }⟩)
    ∧ (∀ (ps : List RawPayment) (orders : List Order) (events : List OrderEvent)
        (exc : String → String → Option String) (now : Nat),
      (run_square_sync true (.ok ps) orders events exc now).res.status = "ok"
      ∧ (run_square_sync true (.ok ps) orders events exc now).res.payments_found = ps.length
      ∧ (run_square_sync true (.ok ps) orders events exc now).res.errors
          = ps.flatMap (sqErrContrib orders exc)
      ∧ (run_square_sync true (.ok ps) orders events exc now).res.payments_unmatched
          = ps.flatMap sqUnmContrib)
    ∧ (∀ (sec1 sec2 sec3 sec4 : Except String (List GmailMsg)) (orders : List Order)
        (events : List OrderEvent) (now : Nat),
      run_gmail_sync false sec1 sec2 sec3 sec4 orders events now
        = ⟨orders, events, { status := some "skipped", reason := some "not_configured" }⟩)
    ∧ (∀ (sec1 sec2 sec3 sec4 : Except String (List GmailMsg)) (orders : List Order)
        (events : List OrderEvent) (now : Nat),
      (run_gmail_sync true sec1 sec2 sec3 sec4 orders events now).res.errors
        = gmailSectionErrors "Payment link search error: " gmailErr1 sec1
          ++ gmailSectionErrors "Payment search error: " gmailErr2 sec2
          ++ gmailSectionErrors "RL quote search error: " gmailErr3 sec3
          ++ gmailSectionErrors "Tracking search error: " gmailErr4 sec4) := by
  refine ⟨fun fetched orders events exc now => rfl,
          fun e orders events exc now => rfl, ?_, fun s1 s2 s3 s4 orders events now => rfl, ?_⟩
  · intro ps orders events exc now
    have hrun : run_square_sync true (.ok ps) orders events exc now
        = ps.foldl (processPayment exc now)
            ⟨orders, events, { payments_found := ps.length }⟩ := rfl
    rw [hrun]
    have hfs := paymentsFold_found_status ps exc now
      ⟨orders, events, { payments_found := ps.length }⟩
    refine ⟨hfs.2, hfs.1, ?_, ?_⟩
    · rw [paymentsFold_errors]
      simp
    · rw [paymentsFold_unmatched]
      simp
  · intro sec1 sec2 sec3 sec4 orders events now
    have hrun : run_gmail_sync true sec1 sec2 sec3 sec4 orders events now
        = runGmailSection (gmailHandleTracking now) "Tracking search error: " sec4
            (runGmailSection (gmailHandleRlQuote now) "RL quote search error: " sec3
              (runGmailSection (gmailHandlePaymentReceived now) "Payment search error: " sec2
                (runGmailSection (gmailHandlePaymentLink now) "Payment link search error: " sec1
                  ⟨orders, events, {}⟩))) := rfl
    rw [hrun,
      runGmailSection_errors _ gmailErr4 (gmailHandleTracking_errors now) _ _ _,
      runGmailSection_errors _ gmailErr3 (gmailHandleRlQuote_errors now) _ _ _,
      runGmailSection_errors _ gmailErr2 (gmailHandlePaymentReceived_errors now) _ _ _,
      runGmailSection_errors _ gmailErr1 (gmailHandlePaymentLink_errors now) _ _ _]
    simp [List.append_assoc]

end CFC
